import Mathlib

/-!
Verification development for the `libsoundtouch` device library
(`src/libsoundtouch/device.py`).

The Python module decodes XML documents returned by a Bose SoundTouch
device into read-only value objects (`Config`, `Network`, `Component`,
`Status`, `ContentItem`, `Volume`, `Preset`, `ZoneStatus`, `ZoneSlave`)
and drives the device through a stateful facade (`SoundTouchDevice`).

The embedding below models:
* parsed XML documents as a rose tree (`XmlNode`), with `minidom`-style
  tag search (`getElementsByTagName` searches all descendants in document
  order; called on a document it includes the root element, called on an
  element it excludes the element itself);
* the module-level extraction helpers `_get_dom_attribute`,
  `_get_dom_element_attribute`, `_get_dom_elements`, `_get_dom_element`,
  `_get_dom_element_value`;
* Python exceptions raised by the decoders (`TypeError` from `int(None)`,
  `ValueError` from `int` on a non-numeric string, `AttributeError` from
  attribute access on `None`, `KeyError` from a missing attribute in a
  `NamedNodeMap`) as an `Except` error type;
* `Element.toxml` (serialization with `minidom`'s `_write_data` escaping)
  and a generic XML re-parser for round-trip statements;
* the facade methods the claims touch, as functions from an environment
  (the parsed response document for each resource path) and a device
  state to a result, a new state and the list of issued HTTP requests.
-/

namespace LibSoundtouch

/-- A parsed XML node: an element with a tag name, attributes in document
order, and child nodes in document order, or a text node holding the
(entity-decoded) character data. -/
inductive XmlNode where
  | element (tag : String) (attrs : List (String × String)) (children : List XmlNode)
  | text (data : String)

/-- Attributes of a node (`minidom`'s `node.attributes`; text nodes never
reach the attribute helpers, they carry no attributes). -/
def XmlNode.attrsOf : XmlNode → List (String × String)
  | .element _ a _ => a
  | .text _ => []

/-- Children of a node (`minidom`'s `node.childNodes`). -/
def XmlNode.childrenOf : XmlNode → List XmlNode
  | .element _ _ c => c
  | .text _ => []

mutual
/-- All elements with the given tag in the subtree rooted at `n`,
including `n` itself, in document (preorder) order. -/
def elementsIn (t : String) (n : XmlNode) : List XmlNode :=
  match n with
  | .text _ => []
  | .element tag attrs ch =>
      (if tag = t then [XmlNode.element tag attrs ch] else []) ++ elementsInList t ch
/-- All elements with the given tag in the subtrees of a list of nodes,
in document order. -/
def elementsInList (t : String) (l : List XmlNode) : List XmlNode :=
  match l with
  | [] => []
  | n :: ns => elementsIn t n ++ elementsInList t ns
end

/-- The receiver of a `getElementsByTagName` call: either a whole parsed
document (`minidom.parseString` result; the search includes the document
element) or a single element (the search covers proper descendants only). -/
inductive Dom where
  | doc (root : XmlNode)
  | elem (e : XmlNode)

/-- `xml_dom.getElementsByTagName(t)`: matching elements in document
order. -/
def Dom.getElementsByTagName : Dom → String → List XmlNode
  | .doc root, t => elementsIn t root
  | .elem e, t => elementsInList t e.childrenOf

/-- `_get_dom_elements(xml_dom, element)`. -/
def _get_dom_elements (d : Dom) (t : String) : List XmlNode :=
  d.getElementsByTagName t

/-- `_get_dom_element(xml_dom, element)`: the first matching element, or
`None`. -/
def _get_dom_element (d : Dom) (t : String) : Option XmlNode :=
  (_get_dom_elements d t).head?

/-- `_get_dom_attribute(xml_dom, attribute)` with the default left at
`None` (every call site uses the default). -/
def _get_dom_attribute (n : XmlNode) (attr : String) : Option String :=
  (n.attrsOf.find? (fun p => p.1 = attr)).map (fun p => p.2)

/-- `_get_dom_element_attribute(xml_dom, element, attribute)` with the
default left at `None` (every call site uses the default): locate the
first element with the tag; if found, its attribute value or `None`; if
not found, the default `None`. -/
def _get_dom_element_attribute (d : Dom) (t attr : String) : Option String :=
  match _get_dom_element d t with
  | some e => (e.attrsOf.find? (fun p => p.1 = attr)).map (fun p => p.2)
  | none => none

/-- Python exceptions the decoders can raise. -/
inductive PyErr where
  | typeError
  | valueError
  | attributeError
  | keyError
deriving Repr, DecidableEq

/-- ASCII whitespace stripped by Python `str.strip()` and accepted
around the digits by `int()` (the uncommon non-ASCII whitespace
code points are not modelled). -/
def isPySpace (c : Char) : Bool :=
  c = ' ' || c = '\t' || c = '\n' || c = '\r' || c = Char.ofNat 11 || c = Char.ofNat 12

/-- Python `str.strip()` with no argument: drop leading and trailing
whitespace. -/
def pyStrip (s : String) : String :=
  String.mk (((s.data.dropWhile isPySpace).reverse.dropWhile isPySpace).reverse)

/-- `_get_dom_element_value(xml_dom, element)` with the default left at
`None`: the first matching element's `firstChild.nodeValue.strip()` when
it has a first child, else `None`.  When the first child is itself an
element its `nodeValue` is `None` and `.strip()` raises
`AttributeError`. -/
def _get_dom_element_value (d : Dom) (t : String) : Except PyErr (Option String) :=
  match _get_dom_element d t with
  | some e =>
      match e.childrenOf.head? with
      | some (.text s) => .ok (some (pyStrip s))
      | some (.element _ _ _) => .error .attributeError
      | none => .ok none
  | none => .ok none

/-- Value of a non-empty run of decimal digits. -/
def digitsToNat (l : List Char) : Nat :=
  l.foldl (fun a c => 10 * a + (c.toNat - '0'.toNat)) 0

/-- Python `int()` applied to a string: strip whitespace, allow one
optional sign, then require a non-empty run of ASCII decimal digits
(underscore separators and non-ASCII digits are not modelled); anything
else raises `ValueError`. -/
def pyIntStr (s : String) : Except PyErr Int :=
  match (pyStrip s).data with
  | '-' :: rest =>
      if rest ≠ [] ∧ rest.all Char.isDigit then .ok (-(digitsToNat rest : Int))
      else .error .valueError
  | '+' :: rest =>
      if rest ≠ [] ∧ rest.all Char.isDigit then .ok ((digitsToNat rest : Nat) : Int)
      else .error .valueError
  | l =>
      if l ≠ [] ∧ l.all Char.isDigit then .ok ((digitsToNat l : Nat) : Int)
      else .error .valueError

/-- Python `int()` applied to an optional string: `int(None)` raises
`TypeError`. -/
def pyInt : Option String → Except PyErr Int
  | none => .error .typeError
  | some s => pyIntStr s

/-- `int(x) if x is not None else None`, the guarded numeric conversion
used for `Status._duration` and `Status._position`. -/
def decodeOptInt : Option String → Except PyErr (Option Int)
  | some s => (pyIntStr s).map (fun n => some n)
  | none => .ok none

/-- `minidom._write_data` escaping, applied both to character data and to
attribute values: the replacement chain `& -> &amp;`, `< -> &lt;`,
`" -> &quot;`, `> -> &gt;`.  The sequential `str.replace` calls act
characterwise because no replacement string contains a character replaced
by a later pass. -/
def escChar (c : Char) : List Char :=
  if c = '&' then ['&', 'a', 'm', 'p', ';']
  else if c = '<' then ['&', 'l', 't', ';']
  else if c = '"' then ['&', 'q', 'u', 'o', 't', ';']
  else if c = '>' then ['&', 'g', 't', ';']
  else [c]

/-- Escape a character-data / attribute-value string. -/
def esc (cs : List Char) : List Char :=
  match cs with
  | [] => []
  | c :: rest => escChar c ++ esc rest

/-- One serialized attribute, ` name="value"` with the value escaped. -/
def serAttr (p : String × String) : List Char :=
  ' ' :: p.1.data ++ '=' :: '"' :: esc p.2.data ++ ['"']

/-- Serialized attribute list, in document order (Python >= 3.8 keeps
attribute document order in `toxml`). -/
def serAttrs (attrs : List (String × String)) : List Char :=
  match attrs with
  | [] => []
  | p :: rest => serAttr p ++ serAttrs rest

mutual
/-- `minidom` serialization of one node (`Element.writexml` /
`Text.writexml` with no indentation, as used by `toxml()`): an element
with no children prints as `<tag .../>`, otherwise as
`<tag ...>children</tag>`; text prints escaped. -/
def serNode (n : XmlNode) : List Char :=
  match n with
  | .text s => esc s.data
  | .element tag attrs ch =>
      '<' :: tag.data ++ serAttrs attrs ++
        (match ch with
         | [] => ['/', '>']
         | _ => '>' :: serNodes ch ++ ('<' :: '/' :: tag.data ++ ['>']))
/-- Serialization of a list of sibling nodes. -/
def serNodes (l : List XmlNode) : List Char :=
  match l with
  | [] => []
  | n :: ns => serNode n ++ serNodes ns
end

/-- The serialized form of an element after its attribute list: `/>` when
childless, else `>` children `</tag>`. -/
def serElemTail (tag : String) (ch : List XmlNode) : List Char :=
  match ch with
  | [] => ['/', '>']
  | _ => '>' :: serNodes ch ++ ('<' :: '/' :: tag.data ++ ['>'])

/-- `node.toxml()`. -/
def toxml (n : XmlNode) : String :=
  String.mk (serNode n)

/-! ## A generic XML re-parser

`Preset.source_xml` is specified to round-trip: re-parsing the serialized
`ContentItem` fragment must yield the same `source`/`type` attributes.
The XML collaborator (`minidom.parseString`) is modelled by a recursive
descent parser over the serialized character stream: start tag, attribute
list with entity-decoded quoted values, children (elements and non-empty
text runs), matching end tag.  Only the predefined entities emitted by
the serializer are handled. -/

/-- Characters accepted in tag and attribute names. -/
def isNameChar (c : Char) : Bool :=
  c.isAlphanum || c = '_' || c = '-' || c = ':' || c = '.'

/-- Split a leading run of name characters. -/
def takeName : List Char → List Char × List Char
  | [] => ([], [])
  | c :: rest =>
      if isNameChar c then
        match takeName rest with
        | (n, r) => (c :: n, r)
      else ([], c :: rest)

/-- Decode one predefined entity reference (after the `&`). -/
def entHead : List Char → Option (Char × List Char)
  | [] => none
  | c1 :: r1 =>
      if c1 = 'a' then
        match r1 with
        | c2 :: c3 :: c4 :: r =>
            if c2 = 'm' ∧ c3 = 'p' ∧ c4 = ';' then some ('&', r) else none
        | _ => none
      else if c1 = 'l' then
        match r1 with
        | c2 :: c3 :: r => if c2 = 't' ∧ c3 = ';' then some ('<', r) else none
        | _ => none
      else if c1 = 'g' then
        match r1 with
        | c2 :: c3 :: r => if c2 = 't' ∧ c3 = ';' then some ('>', r) else none
        | _ => none
      else if c1 = 'q' then
        match r1 with
        | c2 :: c3 :: c4 :: c5 :: r =>
            if c2 = 'u' ∧ c3 = 'o' ∧ c4 = 't' ∧ c5 = ';' then some ('"', r) else none
        | _ => none
      else none

/-- Quoted attribute value: read until the closing quote, decoding the
entities the serializer emits.  The fuel only bounds the recursion; one
unit per decoded character suffices. -/
def parseQuoted (fuel : Nat) (cs : List Char) : Option (List Char × List Char) :=
  match fuel with
  | 0 => none
  | f + 1 =>
      match cs with
      | [] => none
      | c :: rest =>
          if c = '"' then some ([], rest)
          else if c = '&' then
            match entHead rest with
            | some (d, r) => (parseQuoted f r).map (fun p => (d :: p.1, p.2))
            | none => none
          else if c = '<' then none
          else (parseQuoted f rest).map (fun p => (c :: p.1, p.2))

/-- Character data: read until `<` or the end of input, decoding the
entities the serializer emits. -/
def parseText (fuel : Nat) (cs : List Char) : Option (List Char × List Char) :=
  match fuel with
  | 0 => none
  | f + 1 =>
      match cs with
      | [] => some ([], [])
      | c :: rest =>
          if c = '<' then some ([], c :: rest)
          else if c = '&' then
            match entHead rest with
            | some (d, r) => (parseText f r).map (fun p => (d :: p.1, p.2))
            | none => none
          else (parseText f rest).map (fun p => (c :: p.1, p.2))

/-- Attribute list: skip whitespace, then `name="value"` pairs until a
non-name, non-space character (`/` or `>`). -/
def parseAttrs (fuel : Nat) (cs : List Char) : Option (List (String × String) × List Char) :=
  match fuel with
  | 0 => none
  | f + 1 =>
      match cs with
      | [] => none
      | c :: rest =>
          if isPySpace c then parseAttrs f rest
          else if isNameChar c then
            match takeName (c :: rest) with
            | (nm, r1) =>
                match r1 with
                | '=' :: '"' :: r2 =>
                    match parseQuoted f r2 with
                    | none => none
                    | some (v, r3) =>
                        match parseAttrs f r3 with
                        | none => none
                        | some (attrs, r4) => some ((String.mk nm, String.mk v) :: attrs, r4)
                | _ => none
          else some ([], c :: rest)

mutual
/-- One element: `<name attrs/>` or `<name attrs>content</name>`. -/
def parseElem (fuel : Nat) (cs : List Char) : Option (XmlNode × List Char) :=
  match fuel with
  | 0 => none
  | f + 1 =>
      match cs with
      | '<' :: rest =>
          match takeName rest with
          | (tagL, r1) =>
              if tagL = [] then none
              else
                match parseAttrs f r1 with
                | none => none
                | some (attrs, r2) =>
                    match r2 with
                    | '/' :: '>' :: r3 => some (.element (String.mk tagL) attrs [], r3)
                    | '>' :: r3 =>
                        match parseContent f r3 with
                        | none => none
                        | some (children, r4) =>
                            match r4 with
                            | '<' :: '/' :: r5 =>
                                if r5.take tagL.length = tagL then
                                  match r5.drop tagL.length with
                                  | '>' :: r6 =>
                                      some (.element (String.mk tagL) attrs children, r6)
                                  | _ => none
                                else none
                            | _ => none
                    | _ => none
      | _ => none

/-- Element content: children until the closing-tag marker `</`. -/
def parseContent (fuel : Nat) (cs : List Char) : Option (List XmlNode × List Char) :=
  match fuel with
  | 0 => none
  | f + 1 =>
      match cs with
      | [] => none
      | c :: rest =>
          if c = '<' then
            match rest with
            | [] => none
            | d :: r2 =>
                if d = '/' then some ([], c :: d :: r2)
                else
                  match parseElem f (c :: rest) with
                  | none => none
                  | some (e, r3) =>
                      match parseContent f r3 with
                      | none => none
                      | some (ns, r4) => some (e :: ns, r4)
          else
            match parseText f (c :: rest) with
            | none => none
            | some (tL, r5) =>
                if tL = [] then none
                else
                  match parseContent f r5 with
                  | none => none
                  | some (ns, r6) => some (XmlNode.text (String.mk tL) :: ns, r6)
end

/-- Re-parse a serialized fragment: one element covering the whole
string. -/
def reparse (s : String) : Option XmlNode :=
  match parseElem (2 * s.data.length + 2) s.data with
  | some (e, []) => some e
  | _ => none

/-- A tag or attribute name the serializer can round-trip. -/
def nameOk (s : String) : Bool :=
  !s.data.isEmpty && s.data.all isNameChar

/-- Text nodes. -/
def isTextNode : XmlNode → Bool
  | .text _ => true
  | .element _ _ _ => false

/-- No two adjacent text nodes (adjacent runs would merge when
re-parsed). -/
def noAdjText : List XmlNode → Bool
  | [] => true
  | a :: rest =>
      match rest with
      | [] => true
      | b :: _ => !(isTextNode a && isTextNode b) && noAdjText rest

mutual
/-- Round-trippable fragment: valid names, non-empty text nodes, no
adjacent text nodes. -/
def wfNode : XmlNode → Bool
  | .text s => !s.data.isEmpty
  | .element tag attrs ch =>
      nameOk tag && attrs.all (fun p => nameOk p.1) && noAdjText ch && wfNodes ch
/-- `wfNode` on every node of a list. -/
def wfNodes : List XmlNode → Bool
  | [] => true
  | n :: ns => wfNode n && wfNodes ns
end

/-! ## Domain model decoders

Each Python decoder class constructor becomes a `decode` function.  The
field reads happen in the source order, so the first read that raises
determines the exception of the whole constructor. -/

/-- `ContentItem` (decoded from the first `ContentItem` element of a
`nowPlaying` document, or from a preset). -/
structure ContentItem where
  name : Option String
  source : Option String
  type : Option String
  location : Option String
  source_account : Option String
  is_presetable : Bool
deriving Repr, DecidableEq

/-- `ContentItem.__init__`.  `Status.__init__` passes
`_get_dom_element(xml_dom, "ContentItem")`, which is `None` when the
document has no `ContentItem` element; `_get_dom_element_value(None, ...)`
then calls `None.getElementsByTagName`, raising `AttributeError`. -/
def ContentItem.decode : Option XmlNode → Except PyErr ContentItem
  | none => .error .attributeError
  | some e => do
      let name ← _get_dom_element_value (.elem e) "itemName"
      .ok { name
            source := _get_dom_attribute e "source"
            type := _get_dom_attribute e "type"
            location := _get_dom_attribute e "location"
            source_account := _get_dom_attribute e "sourceAccount"
            is_presetable := _get_dom_attribute e "isPresetable" == some "true" }

/-- `Status` (decoded from a `/now_playing` document). -/
structure Status where
  source : Option String
  content_item : ContentItem
  track : Option String
  artist : Option String
  album : Option String
  image : Option String
  duration : Option Int
  position : Option Int
  play_status : Option String
  shuffle_setting : Option String
  repeat_setting : Option String
  stream_type : Option String
  track_id : Option String
  station_name : Option String
  description : Option String
  station_location : Option String
deriving Repr, DecidableEq

/-- `Status.__init__`. -/
def Status.decode (d : Dom) : Except PyErr Status := do
  let source := _get_dom_element_attribute d "nowPlaying" "source"
  let content_item ← ContentItem.decode (_get_dom_element d "ContentItem")
  let track ← _get_dom_element_value d "track"
  let artist ← _get_dom_element_value d "artist"
  let album ← _get_dom_element_value d "album"
  let image_status := _get_dom_element_attribute d "art" "artImageStatus"
  let image ← if image_status = some "IMAGE_PRESENT" then
      _get_dom_element_value d "art"
    else
      .ok none
  let duration ← decodeOptInt (_get_dom_element_attribute d "time" "total")
  let positionText ← _get_dom_element_value d "time"
  let position ← decodeOptInt positionText
  let play_status ← _get_dom_element_value d "playStatus"
  let shuffle_setting ← _get_dom_element_value d "shuffleSetting"
  let repeat_setting ← _get_dom_element_value d "repeatSetting"
  let stream_type ← _get_dom_element_value d "streamType"
  let track_id ← _get_dom_element_value d "trackID"
  let station_name ← _get_dom_element_value d "stationName"
  let description ← _get_dom_element_value d "description"
  let station_location ← _get_dom_element_value d "stationLocation"
  .ok { source, content_item, track, artist, album, image, duration, position,
        play_status, shuffle_setting, repeat_setting, stream_type, track_id,
        station_name, description, station_location }

/-- `Volume` (decoded from a `/volume` document). -/
structure Volume where
  actual : Int
  target : Int
  muted : Bool
deriving Repr, DecidableEq

/-- `Volume.__init__`: note the unguarded `int(...)` around
`_get_dom_element_value`, so a missing `actualvolume`/`targetvolume`
element reaches `int(None)`. -/
def Volume.decode (d : Dom) : Except PyErr Volume := do
  let actualText ← _get_dom_element_value d "actualvolume"
  let actual ← pyInt actualText
  let targetText ← _get_dom_element_value d "targetvolume"
  let target ← pyInt targetText
  let mutedText ← _get_dom_element_value d "muteenabled"
  .ok { actual, target, muted := mutedText == some "true" }

/-- `Network` (decoded from one `networkInfo` element). -/
structure Network where
  type : String
  mac_address : Option String
  ip_address : Option String
deriving Repr, DecidableEq

/-- `Network.__init__`: `network_dom.attributes["type"].value` raises
`KeyError` when the `type` attribute is absent. -/
def Network.decode (e : XmlNode) : Except PyErr Network := do
  let type ← match e.attrsOf.find? (fun p => p.1 = "type") with
    | some p => Except.ok p.2
    | none => Except.error PyErr.keyError
  let mac_address ← _get_dom_element_value (.elem e) "macAddress"
  let ip_address ← _get_dom_element_value (.elem e) "ipAddress"
  .ok { type, mac_address, ip_address }

/-- `Component` (decoded from one `component` element). -/
structure Component where
  category : Option String
  software_version : Option String
  serial_number : Option String
deriving Repr, DecidableEq

/-- `Component.__init__`. -/
def Component.decode (e : XmlNode) : Except PyErr Component := do
  let category ← _get_dom_element_value (.elem e) "componentCategory"
  let software_version ← _get_dom_element_value (.elem e) "softwareVersion"
  let serial_number ← _get_dom_element_value (.elem e) "serialNumber"
  .ok { category, software_version, serial_number }

/-- `Config` (decoded from a `/info` document). -/
structure Config where
  device_id : Option String
  name : Option String
  type : Option String
  account_uuid : Option String
  module_type : Option String
  variant : Option String
  variant_mode : Option String
  country_code : Option String
  region_code : Option String
  networks : List Network
  components : List Component
deriving Repr, DecidableEq

/-- `Config.__init__`. -/
def Config.decode (d : Dom) : Except PyErr Config := do
  let device_id := _get_dom_element_attribute d "info" "deviceID"
  let name ← _get_dom_element_value d "name"
  let type ← _get_dom_element_value d "type"
  let account_uuid ← _get_dom_element_value d "margeAccountUUID"
  let module_type ← _get_dom_element_value d "moduleType"
  let variant ← _get_dom_element_value d "variant"
  let variant_mode ← _get_dom_element_value d "variantMode"
  let country_code ← _get_dom_element_value d "countryCode"
  let region_code ← _get_dom_element_value d "regionCode"
  let networks ← (d.getElementsByTagName "networkInfo").mapM Network.decode
  let components ←
    ((_get_dom_elements d "components").map
        (fun cs => _get_dom_elements (.elem cs) "component")).flatten.mapM Component.decode
  .ok { device_id, name, type, account_uuid, module_type, variant,
        variant_mode, country_code, region_code, networks, components }

/-- `Config.device_ip`: the first `Network` with type `"SMSC"`, else the
first `Network`, else `None`; then its `ip_address` (itself optional). -/
def Config.device_ip (c : Config) : Option String :=
  match (c.networks.find? (fun n => n.type == "SMSC")).orElse (fun _ => c.networks.head?) with
  | some n => n.ip_address
  | none => none

/-- `Config.mac_address`: same selection as `Config.device_ip`, then the
network's `mac_address`. -/
def Config.mac_address (c : Config) : Option String :=
  match (c.networks.find? (fun n => n.type == "SMSC")).orElse (fun _ => c.networks.head?) with
  | some n => n.mac_address
  | none => none

/-- `Preset` (decoded from one `preset` element of a `/presets`
document). -/
structure Preset where
  name : Option String
  preset_id : Option String
  source : Option String
  type : Option String
  location : Option String
  source_account : Option String
  is_presetable : Bool
  source_xml : String
deriving Repr, DecidableEq

/-- `Preset.__init__`: the final line
`_get_dom_element(preset_dom, "ContentItem").toxml()` raises
`AttributeError` when the preset has no `ContentItem` element. -/
def Preset.decode (e : XmlNode) : Except PyErr Preset := do
  let name ← _get_dom_element_value (.elem e) "itemName"
  let preset_id := _get_dom_attribute e "id"
  let source := _get_dom_element_attribute (.elem e) "ContentItem" "source"
  let type := _get_dom_element_attribute (.elem e) "ContentItem" "type"
  let location := _get_dom_element_attribute (.elem e) "ContentItem" "location"
  let source_account := _get_dom_element_attribute (.elem e) "ContentItem" "sourceAccount"
  let is_presetable := _get_dom_element_attribute (.elem e) "ContentItem" "isPresetable" == some "true"
  let source_xml ← match _get_dom_element (.elem e) "ContentItem" with
    | some ci => Except.ok (toxml ci)
    | none => Except.error PyErr.attributeError
  .ok { name, preset_id, source, type, location, source_account,
        is_presetable, source_xml }

/-- `ZoneSlave` (decoded from one `member` element). -/
structure ZoneSlave where
  device_ip : Option String
  role : Option String
deriving Repr, DecidableEq

/-- `ZoneSlave.__init__`. -/
def ZoneSlave.decode (e : XmlNode) : ZoneSlave :=
  { device_ip := _get_dom_attribute e "ipaddress"
    role := _get_dom_attribute e "role" }

/-- `ZoneStatus` (decoded from a `/getZone` document). -/
structure ZoneStatus where
  master_id : Option String
  master_ip : Option String
  is_master : Bool
  slaves : List ZoneSlave
deriving Repr, DecidableEq

/-- `ZoneStatus.__init__` (never raises: every read is defaulted). -/
def ZoneStatus.decode (d : Dom) : ZoneStatus :=
  let master_id := _get_dom_element_attribute d "zone" "master"
  let master_ip := _get_dom_element_attribute d "zone" "senderIPAddress"
  { master_id, master_ip
    is_master := master_ip.isNone
    slaves := (_get_dom_elements d "member").map ZoneSlave.decode }

/-! ## Device facade

`SoundTouchDevice` keeps a host, a port, the immutable `Config` fetched at
construction and four snapshot slots.  Each method below is a function of
an environment — the parsed document the device would answer for each GET
path — and the current state; it returns the Python result (normal return
or raised exception), the state after the call and the list of HTTP
requests issued, in order.  A POST's response is never read, so the
environment only carries GET documents. -/

/-- An HTTP request issued by the facade. -/
inductive HttpReq where
  | get (url : String)
  | post (url : String) (body : String)
deriving Repr, DecidableEq

/-- Exceptions escaping a facade method: the two zone preconditions
(`NoSlavesException`, `NoExistingZoneException`) or a Python error from a
decoder. -/
inductive Exc where
  | noSlaves
  | noExistingZone
  | py (e : PyErr)
deriving Repr, DecidableEq

/-- The mutable state of one `SoundTouchDevice` (slave devices in zone
calls are other `SoundTouchDevice` objects, so they are states too). -/
structure DeviceState where
  host : String
  port : Nat
  config : Config
  status : Option Status
  volume : Option Volume
  zone_status : Option ZoneStatus
  presets : List Preset
deriving Repr, DecidableEq

/-- Parsed documents served by the device for the GET endpoints the
modelled methods touch. -/
structure Env where
  now_playing : XmlNode
  getZone : XmlNode

/-- Outcome of one facade method call: the returned value or escaped
exception, the device state after the call, and the issued requests. -/
structure MethodResult (α : Type) where
  result : Except Exc α
  state : DeviceState
  trace : List HttpReq

/-- `"http://" + self._host + ":" + str(self._port)`. -/
def baseUrl (s : DeviceState) : String :=
  "http://" ++ s.host ++ ":" ++ toString s.port

/-- `"%s" % x` for an optional string: Python formats `None` as
`"None"`. -/
def pyStr : Option String → String
  | some s => s
  | none => "None"

/-- `SoundTouchDevice.refresh_status`. -/
def refresh_status (env : Env) (s : DeviceState) : MethodResult Unit :=
  let url := baseUrl s ++ "/now_playing"
  match Status.decode (.doc env.now_playing) with
  | .ok st => ⟨.ok (), { s with status := some st }, [.get url]⟩
  | .error e => ⟨.error (.py e), s, [.get url]⟩

/-- `SoundTouchDevice.refresh_zone_status`: the zone slot is only
replaced when the response holds at least one `member` element. -/
def refresh_zone_status (env : Env) (s : DeviceState) : MethodResult Unit :=
  if (_get_dom_elements (.doc env.getZone) "member").length ≠ 0 then
    ⟨.ok (), { s with zone_status := some (ZoneStatus.decode (.doc env.getZone)) },
      [.get (baseUrl s ++ "/getZone")]⟩
  else
    ⟨.ok (), s, [.get (baseUrl s ++ "/getZone")]⟩

/-- `SoundTouchDevice._send_key`: the press POST then the release POST,
both to `/key`. -/
def _send_key (s : DeviceState) (key : String) : List HttpReq :=
  let url := baseUrl s ++ "/key"
  [.post url ("<key state=\"press\" sender=\"Gabbo\">" ++ key ++ "</key>"),
   .post url ("<key state=\"release\" sender=\"Gabbo\">" ++ key ++ "</key>")]

/-- `KEY_POWER`. -/
def KEY_POWER : String := "POWER"

/-- `STATE_STANDBY`. -/
def STATE_STANDBY : String := "STANDBY"

/-- `SoundTouchDevice.power_on`: refresh the status, then send the POWER
key only when the refreshed source equals the standby sentinel.
(`self.status.source == STATE_STANDBY` is `False` when the source
attribute was absent, since `None == "STANDBY"` is `False`.) -/
def power_on (env : Env) (s : DeviceState) : MethodResult Unit :=
  let r := refresh_status env s
  match r.result with
  | .error e => ⟨.error e, r.state, r.trace⟩
  | .ok _ =>
      match r.state.status with
      | none => ⟨.error (.py .attributeError), r.state, r.trace⟩
      | some st =>
          if st.source = some STATE_STANDBY then
            ⟨.ok (), r.state, r.trace ++ _send_key r.state KEY_POWER⟩
          else
            ⟨.ok (), r.state, r.trace⟩

/-- `SoundTouchDevice.power_off`: refresh the status, then send the POWER
key only when the refreshed source differs from the standby sentinel. -/
def power_off (env : Env) (s : DeviceState) : MethodResult Unit :=
  let r := refresh_status env s
  match r.result with
  | .error e => ⟨.error e, r.state, r.trace⟩
  | .ok _ =>
      match r.state.status with
      | none => ⟨.error (.py .attributeError), r.state, r.trace⟩
      | some st =>
          if st.source ≠ some STATE_STANDBY then
            ⟨.ok (), r.state, r.trace ++ _send_key r.state KEY_POWER⟩
          else
            ⟨.ok (), r.state, r.trace⟩

/-- The `<member ipaddress="...">...</member>` run shared by
`_create_zone` and `_get_zone_request_body`. -/
def memberBody (slaves : List DeviceState) : String :=
  match slaves with
  | [] => ""
  | sl :: rest =>
      "<member ipaddress=\"" ++ pyStr sl.config.device_ip ++ "\">" ++
        pyStr sl.config.device_id ++ "</member>" ++ memberBody rest

/-- `SoundTouchDevice._create_zone`: raises `NoSlavesException` on an
empty slave list, otherwise builds the `/setZone` request body (with
`senderIPAddress`). -/
def _create_zone (s : DeviceState) (slaves : List DeviceState) : Except Exc String :=
  if slaves.length ≤ 0 then .error .noSlaves
  else .ok ("<zone master=\"" ++ pyStr s.config.device_id ++
      "\" senderIPAddress=\"" ++ pyStr s.config.device_ip ++ "\">" ++
      memberBody slaves ++ "</zone>")

/-- `SoundTouchDevice._get_zone_request_body`: raises
`NoSlavesException` on an empty slave list, otherwise builds the
add/remove request body (no `senderIPAddress`). -/
def _get_zone_request_body (s : DeviceState) (slaves : List DeviceState) : Except Exc String :=
  if slaves.length ≤ 0 then .error .noSlaves
  else .ok ("<zone master=\"" ++ pyStr s.config.device_id ++ "\">" ++
      memberBody slaves ++ "</zone>")

/-- `SoundTouchDevice.create_zone`: build the body (which may raise),
then POST it to `/setZone`. -/
def create_zone (s : DeviceState) (slaves : List DeviceState) : MethodResult Unit :=
  match _create_zone s slaves with
  | .error e => ⟨.error e, s, []⟩
  | .ok body => ⟨.ok (), s, [.post (baseUrl s ++ "/setZone") body]⟩

/-- `SoundTouchDevice.add_zone_slave`: refresh the zone status (a GET),
raise `NoExistingZoneException` when the zone slot is still `None`, then
build the body (which raises `NoSlavesException` when empty) and POST it
to `/addZoneSlave`. -/
def add_zone_slave (env : Env) (s : DeviceState) (slaves : List DeviceState) :
    MethodResult Unit :=
  let r := refresh_zone_status env s
  match r.state.zone_status with
  | none => ⟨.error .noExistingZone, r.state, r.trace⟩
  | some _ =>
      match _get_zone_request_body r.state slaves with
      | .error e => ⟨.error e, r.state, r.trace⟩
      | .ok body =>
          ⟨.ok (), r.state, r.trace ++ [.post (baseUrl r.state ++ "/addZoneSlave") body]⟩

/-- `SoundTouchDevice.remove_zone_slave`: same shape as
`add_zone_slave`, POSTing to `/removeZoneSlave`. -/
def remove_zone_slave (env : Env) (s : DeviceState) (slaves : List DeviceState) :
    MethodResult Unit :=
  let r := refresh_zone_status env s
  match r.state.zone_status with
  | none => ⟨.error .noExistingZone, r.state, r.trace⟩
  | some _ =>
      match _get_zone_request_body r.state slaves with
      | .error e => ⟨.error e, r.state, r.trace⟩
      | .ok body =>
          ⟨.ok (), r.state, r.trace ++ [.post (baseUrl r.state ++ "/removeZoneSlave") body]⟩

/-! ## Concrete fixtures

Concrete documents and device states used to instantiate the theorems
below (witnesses and counterexamples). -/

/-- A `nowPlaying` document: standby source, a `ContentItem` with an
`itemName`, a `track`, an `art` element flagged `IMAGE_PRESENT` but with
no text content, and a `time` element. -/
def npStandbyDoc : XmlNode :=
  .element "nowPlaying" [("source", "STANDBY")]
    [.element "ContentItem" [("source", "STANDBY"), ("isPresetable", "true")]
        [.element "itemName" [] [.text "standby"]],
     .element "track" [] [.text "tr"],
     .element "art" [("artImageStatus", "IMAGE_PRESENT")] [],
     .element "time" [("total", "255")] [.text "32"]]

/-- A `nowPlaying` document playing from SPOTIFY. -/
def npSpotifyDoc : XmlNode :=
  .element "nowPlaying" [("source", "SPOTIFY")]
    [.element "ContentItem" [("source", "SPOTIFY")] [.element "itemName" [] [.text "x"]]]

/-- A `nowPlaying` document with only optional parts missing: no
`ContentItem` child at all. -/
def npNoContentItemDoc : XmlNode :=
  .element "nowPlaying" [("source", "STANDBY")] []

/-- A `/getZone` answer with no `member` element. -/
def zoneEmptyDoc : XmlNode :=
  .element "zone" [] []

/-- A `/getZone` answer with one `member` element. -/
def zoneOneMemberDoc : XmlNode :=
  .element "zone" [("master", "MASTERID")]
    [.element "member" [("ipaddress", "192.168.1.4")] [.text "SLAVEID"]]

/-- A `/volume` document with none of the volume elements. -/
def volEmptyDoc : XmlNode :=
  .element "volume" [] []

/-- A complete `/volume` document. -/
def volFullDoc : XmlNode :=
  .element "volume" []
    [.element "actualvolume" [] [.text "25"],
     .element "targetvolume" [] [.text "30"],
     .element "muteenabled" [] [.text "false"]]

/-- A `/volume` document with `actualvolume` present but `targetvolume`
absent. -/
def volHalfDoc : XmlNode :=
  .element "volume" [] [.element "actualvolume" [] [.text "25"]]

/-- An `/info` document whose `"SMSC"` network comes second. -/
def infoDoc : XmlNode :=
  .element "info" [("deviceID", "ABCDEF")]
    [.element "name" [] [.text "Home"],
     .element "networkInfo" [("type", "SCM")]
        [.element "macAddress" [] [.text "mac1"], .element "ipAddress" [] [.text "ip1"]],
     .element "networkInfo" [("type", "SMSC")]
        [.element "macAddress" [] [.text "mac2"], .element "ipAddress" [] [.text "ip2"]]]

/-- A `networkInfo` element without a `type` attribute. -/
def networkNoTypeDoc : XmlNode :=
  .element "networkInfo" []
    [.element "macAddress" [] [.text "mac1"], .element "ipAddress" [] [.text "ip1"]]

/-- A `networkInfo` element with a `type` attribute. -/
def networkTypedDoc : XmlNode :=
  .element "networkInfo" [("type", "SCM")]
    [.element "macAddress" [] [.text "mac1"], .element "ipAddress" [] [.text "ip1"]]

/-- A `preset` element with a `ContentItem` carrying `source` and `type`
attributes. -/
def presetDoc : XmlNode :=
  .element "preset" [("id", "1")]
    [.element "ContentItem" [("source", "X"), ("type", "Y")]
        [.element "itemName" [] [.text "N"]]]

/-- The `ContentItem` element of `presetDoc`. -/
def presetContentItem : XmlNode :=
  .element "ContentItem" [("source", "X"), ("type", "Y")]
    [.element "itemName" [] [.text "N"]]

/-- A `preset` element without any `ContentItem`. -/
def presetNoContentItemDoc : XmlNode :=
  .element "preset" [("id", "2")] [.element "itemName" [] [.text "M"]]

/-- An empty device configuration (every field read defaulted). -/
def cfgEmpty : Config :=
  { device_id := none, name := none, type := none, account_uuid := none
    module_type := none, variant := none, variant_mode := none
    country_code := none, region_code := none, networks := [], components := [] }

/-- A freshly constructed device: no snapshot cached yet. -/
def devFresh : DeviceState :=
  { host := "h", port := 8090, config := cfgEmpty, status := none
    volume := none, zone_status := none, presets := [] }

/-- A cached zone snapshot (as decoded from `zoneOneMemberDoc`). -/
def zsCached : ZoneStatus :=
  ZoneStatus.decode (.doc zoneOneMemberDoc)

/-- A device holding a cached zone snapshot from an earlier refresh. -/
def devWithZone : DeviceState :=
  { devFresh with zone_status := some zsCached }

/-- An environment whose device is in standby and currently reports no
zone members. -/
def envStandbyNoZone : Env :=
  ⟨npStandbyDoc, zoneEmptyDoc⟩

/-- An environment playing SPOTIFY, reporting one zone member. -/
def envSpotifyZone : Env :=
  ⟨npSpotifyDoc, zoneOneMemberDoc⟩

/-! ## General lemmas -/

/-- Reducing a successful `Except` bind. -/
theorem ex_bind_ok {ε α β : Type} (a : α) (f : α → Except ε β) :
    (Except.ok a >>= f : Except ε β) = f a := rfl

/-- Reducing a failed `Except` bind. -/
theorem ex_bind_error {ε α β : Type} (e : ε) (f : α → Except ε β) :
    (Except.error e >>= f : Except ε β) = Except.error e := rfl

/-- `find?` returns the element at the first index satisfying the
predicate. -/
theorem find?_eq_of_first {α : Type} (p : α → Bool) (l : List α) (i : Nat) (hi : i < l.length)
    (hp : p (l.get ⟨i, hi⟩) = true)
    (hfirst : ∀ j (hj : j < l.length), j < i → p (l.get ⟨j, hj⟩) = false) :
    l.find? p = some (l.get ⟨i, hi⟩) := by
  induction l generalizing i with
  | nil => exact absurd hi (by simp)
  | cons a tl ih =>
    cases i with
    | zero =>
      have ha : (a :: tl).get ⟨0, hi⟩ = a := rfl
      rw [ha] at hp ⊢
      exact List.find?_cons_of_pos _ hp
    | succ n =>
      have ha : p a = false := hfirst 0 (by simp) (Nat.succ_pos n)
      rw [List.find?_cons_of_neg _ (by simp [ha])]
      exact ih n (by simpa using hi) hp
        (fun j hj hjn => hfirst (j + 1) (by simpa using hj) (by omega))

/-- Mapping `Except.ok` over a list succeeds when every element
succeeds. -/
theorem mapM_ok_of_forall {ε α β : Type} (f : α → Except ε β) (l : List α)
    (h : ∀ x ∈ l, ∃ y, f x = .ok y) : ∃ ys, l.mapM f = .ok ys := by
  induction l with
  | nil => exact ⟨[], rfl⟩
  | cons a tl ih =>
    obtain ⟨y, hy⟩ := h a (by simp)
    obtain ⟨ys, hys⟩ := ih (fun x hx => h x (by simp [hx]))
    refine ⟨y :: ys, ?_⟩
    simp only [List.mapM_cons, hy, hys]
    rfl

/-! ## Facade lemmas -/

/-- `refresh_zone_status` always returns normally. -/
theorem refresh_zone_status_result (env : Env) (s : DeviceState) :
    (refresh_zone_status env s).result = .ok () := by
  simp only [refresh_zone_status]
  split <;> rfl

/-- `refresh_zone_status` issues exactly the `/getZone` GET. -/
theorem refresh_zone_status_trace (env : Env) (s : DeviceState) :
    (refresh_zone_status env s).trace = [.get (baseUrl s ++ "/getZone")] := by
  simp only [refresh_zone_status]
  split <;> rfl

/-- The state after `refresh_zone_status`. -/
theorem refresh_zone_status_state (env : Env) (s : DeviceState) :
    (refresh_zone_status env s).state =
      if (_get_dom_elements (.doc env.getZone) "member").length ≠ 0 then
        { s with zone_status := some (ZoneStatus.decode (.doc env.getZone)) }
      else s := by
  simp only [refresh_zone_status]
  split <;> rfl

/-! ## Claims -/

/-- C3 (amended): `create_zone([])` fails with `NoSlavesException` and
issues no HTTP request; `add_zone_slave([])` and `remove_zone_slave([])`
first issue the `/getZone` GET of the zone refresh and then fail — with
`NoExistingZoneException` when the refreshed zone snapshot is `None`,
otherwise with `NoSlavesException` — and in every case issue no POST. -/
theorem spec_c3_empty_slaves (env : Env) (s : DeviceState) :
    create_zone s [] = ⟨.error .noSlaves, s, []⟩ ∧
    (add_zone_slave env s []).trace = [.get (baseUrl s ++ "/getZone")] ∧
    ((refresh_zone_status env s).state.zone_status = none →
      (add_zone_slave env s []).result = .error .noExistingZone) ∧
    (∀ zs, (refresh_zone_status env s).state.zone_status = some zs →
      (add_zone_slave env s []).result = .error .noSlaves) ∧
    (remove_zone_slave env s []).trace = [.get (baseUrl s ++ "/getZone")] ∧
    ((refresh_zone_status env s).state.zone_status = none →
      (remove_zone_slave env s []).result = .error .noExistingZone) ∧
    (∀ zs, (refresh_zone_status env s).state.zone_status = some zs →
      (remove_zone_slave env s []).result = .error .noSlaves) := by
  refine ⟨rfl, ?_, ?_, ?_, ?_, ?_, ?_⟩
  · simp only [add_zone_slave]
    cases hz : (refresh_zone_status env s).state.zone_status <;>
      simp [hz, _get_zone_request_body, refresh_zone_status_trace]
  · intro hz
    simp only [add_zone_slave]
    simp [hz]
  · intro zs hz
    simp only [add_zone_slave]
    simp [hz, _get_zone_request_body]
  · simp only [remove_zone_slave]
    cases hz : (refresh_zone_status env s).state.zone_status <;>
      simp [hz, _get_zone_request_body, refresh_zone_status_trace]
  · intro hz
    simp only [remove_zone_slave]
    simp [hz]
  · intro zs hz
    simp only [remove_zone_slave]
    simp [hz, _get_zone_request_body]

/-- C3, witness: a fresh facade (no cached zone, zero-member poll) hits
`NoExistingZoneException`; a facade with a cached zone snapshot hits
`NoSlavesException`; `create_zone([])` issues nothing. -/
theorem spec_c3_witness :
    create_zone devFresh [] = ⟨.error .noSlaves, devFresh, []⟩ ∧
    (add_zone_slave envStandbyNoZone devFresh []).result = .error .noExistingZone ∧
    (add_zone_slave envStandbyNoZone devWithZone []).result = .error .noSlaves ∧
    (remove_zone_slave envStandbyNoZone devWithZone []).result = .error .noSlaves := by
  have h1 := spec_c3_empty_slaves envStandbyNoZone devFresh
  have h2 := spec_c3_empty_slaves envStandbyNoZone devWithZone
  exact ⟨h1.1, h1.2.2.1 rfl, h2.2.2.2.1 zsCached rfl, h2.2.2.2.2.2.2 zsCached rfl⟩

/-- C3, counterexample to the claim as stated: on a master with no cached
zone, `add_zone_slave([])` issues an HTTP GET (to `/getZone`) before
failing, and the exception is `NoExistingZoneException`, not
`NoSlavesException`. -/
theorem spec_c3_counterexample :
    (add_zone_slave envStandbyNoZone devFresh []).trace =
      [.get "http://h:8090/getZone"] ∧
    (add_zone_slave envStandbyNoZone devFresh []).result = .error .noExistingZone := by
  exact ⟨rfl, rfl⟩

/-- C4 (amended): with a non-empty slave list and a `/getZone` response
with zero `member` elements, `add_zone_slave` fails with
`NoExistingZoneException` and issues no POST provided the facade had no
cached zone snapshot before the call; when a snapshot from an earlier
refresh is cached, the stale snapshot passes the zone check and the
`/addZoneSlave` POST is issued. -/
theorem spec_c4_add_slave_no_members (env : Env) (s : DeviceState)
    (slaves : List DeviceState) (hslaves : slaves ≠ [])
    (hmem : (_get_dom_elements (.doc env.getZone) "member").length = 0) :
    (s.zone_status = none →
      (add_zone_slave env s slaves).result = .error .noExistingZone ∧
      (add_zone_slave env s slaves).trace = [.get (baseUrl s ++ "/getZone")]) ∧
    (∀ zs, s.zone_status = some zs →
      (add_zone_slave env s slaves).result = .ok () ∧
      (add_zone_slave env s slaves).trace =
        [.get (baseUrl s ++ "/getZone"),
         .post (baseUrl s ++ "/addZoneSlave")
           ("<zone master=\"" ++ pyStr s.config.device_id ++ "\">" ++
             memberBody slaves ++ "</zone>")]) := by
  have hst : (refresh_zone_status env s).state = s := by
    rw [refresh_zone_status_state]
    simp [hmem]
  have hsl : ¬ slaves.length ≤ 0 := by
    cases slaves with
    | nil => exact absurd rfl hslaves
    | cons a tl => simp
  constructor
  · intro hz
    simp only [add_zone_slave]
    simp [hst, hz, refresh_zone_status_trace]
  · intro zs hz
    simp only [add_zone_slave]
    simp [hst, hz, _get_zone_request_body, hsl, refresh_zone_status_trace]

/-- C4, counterexample to the claim as stated: the facade's prior state
matters — with a cached zone snapshot and a zero-`member` `/getZone`
response, `add_zone_slave` raises nothing and issues the
`/addZoneSlave` POST. -/
theorem spec_c4_counterexample :
    (_get_dom_elements (.doc envStandbyNoZone.getZone) "member").length = 0 ∧
    (add_zone_slave envStandbyNoZone devWithZone [devFresh]).result = .ok () ∧
    (add_zone_slave envStandbyNoZone devWithZone [devFresh]).trace =
      [.get "http://h:8090/getZone",
       .post "http://h:8090/addZoneSlave"
         "<zone master=\"None\"><member ipaddress=\"None\">None</member></zone>"] := by
  exact ⟨rfl, rfl, rfl⟩

/-- C4, witness: with no cached snapshot the call fails with
`NoExistingZoneException` after only the GET; with a cached snapshot it
posts. -/
theorem spec_c4_witness :
    (add_zone_slave envStandbyNoZone devFresh [devFresh]).result = .error .noExistingZone ∧
    (add_zone_slave envStandbyNoZone devFresh [devFresh]).trace =
      [.get "http://h:8090/getZone"] ∧
    (add_zone_slave envStandbyNoZone devWithZone [devFresh]).result = .ok () := by
  have h1 := spec_c4_add_slave_no_members envStandbyNoZone devFresh [devFresh]
    (by simp) rfl
  have h2 := spec_c4_add_slave_no_members envStandbyNoZone devWithZone [devFresh]
    (by simp) rfl
  exact ⟨(h1.1 rfl).1, (h1.1 rfl).2, (h2.2 zsCached rfl).1⟩

/-- C5: `refresh_zone_status` replaces the cached zone snapshot exactly
when the response holds at least one `member` element, leaves it
untouched otherwise, and never changes the other facade slots. -/
theorem spec_c5_refresh_zone_frame (env : Env) (s : DeviceState) :
    ((_get_dom_elements (.doc env.getZone) "member").length ≠ 0 →
      (refresh_zone_status env s).state.zone_status =
        some (ZoneStatus.decode (.doc env.getZone))) ∧
    ((_get_dom_elements (.doc env.getZone) "member").length = 0 →
      (refresh_zone_status env s).state.zone_status = s.zone_status) ∧
    (refresh_zone_status env s).state.status = s.status ∧
    (refresh_zone_status env s).state.volume = s.volume ∧
    (refresh_zone_status env s).state.presets = s.presets ∧
    (refresh_zone_status env s).state.config = s.config ∧
    (refresh_zone_status env s).result = .ok () := by
  rw [refresh_zone_status_state, refresh_zone_status_result]
  split <;> simp_all

/-- C5, witness: a zero-`member` poll leaves the previously cached zone
snapshot in place, and a one-`member` poll replaces it. -/
theorem spec_c5_witness :
    (refresh_zone_status envStandbyNoZone devWithZone).state.zone_status =
      devWithZone.zone_status ∧
    (refresh_zone_status envSpotifyZone devFresh).state.zone_status =
      some (ZoneStatus.decode (.doc zoneOneMemberDoc)) := by
  exact ⟨(spec_c5_refresh_zone_frame envStandbyNoZone devWithZone).2.1 rfl,
    (spec_c5_refresh_zone_frame envSpotifyZone devFresh).1 (by decide)⟩

/-- C9: both `add_zone_slave` and `remove_zone_slave` check the
existing-zone precondition before the non-empty-slaves precondition, so
with an empty slave list and a post-refresh zone snapshot of `None` the
escaping exception is `NoExistingZoneException`, not
`NoSlavesException`. -/
theorem spec_c9_error_priority (env : Env) (s : DeviceState)
    (h : (refresh_zone_status env s).state.zone_status = none) :
    (add_zone_slave env s []).result = .error .noExistingZone ∧
    (remove_zone_slave env s []).result = .error .noExistingZone := by
  simp only [add_zone_slave, remove_zone_slave]
  simp [h]

/-- C9, witness: a fresh facade with a zero-`member` `/getZone` response
hits `NoExistingZoneException` on both empty-slave calls. -/
theorem spec_c9_witness :
    (add_zone_slave envStandbyNoZone devFresh []).result = .error .noExistingZone ∧
    (remove_zone_slave envStandbyNoZone devFresh []).result = .error .noExistingZone := by
  exact spec_c9_error_priority envStandbyNoZone devFresh rfl

/-- All the reads `Status.__init__` performs, assumed successful, and the
resulting record (the read order and the wiring of every field). -/
theorem Status.decode_reads (d : Dom)
    (ci : ContentItem) (vtrack vartist valbum vimg : Option String)
    (vdur : Option Int) (vtime : Option String) (vpos : Option Int)
    (vps vss vrs vstr vtid vsn vdesc vsl : Option String)
    (hci : ContentItem.decode (_get_dom_element d "ContentItem") = .ok ci)
    (htrack : _get_dom_element_value d "track" = .ok vtrack)
    (hartist : _get_dom_element_value d "artist" = .ok vartist)
    (halbum : _get_dom_element_value d "album" = .ok valbum)
    (himg : (if _get_dom_element_attribute d "art" "artImageStatus" = some "IMAGE_PRESENT" then
        _get_dom_element_value d "art" else .ok none) = .ok vimg)
    (hdur : decodeOptInt (_get_dom_element_attribute d "time" "total") = .ok vdur)
    (htime : _get_dom_element_value d "time" = .ok vtime)
    (hpos : decodeOptInt vtime = .ok vpos)
    (hps : _get_dom_element_value d "playStatus" = .ok vps)
    (hss : _get_dom_element_value d "shuffleSetting" = .ok vss)
    (hrs : _get_dom_element_value d "repeatSetting" = .ok vrs)
    (hstr : _get_dom_element_value d "streamType" = .ok vstr)
    (htid : _get_dom_element_value d "trackID" = .ok vtid)
    (hsn : _get_dom_element_value d "stationName" = .ok vsn)
    (hdesc : _get_dom_element_value d "description" = .ok vdesc)
    (hsl : _get_dom_element_value d "stationLocation" = .ok vsl) :
    Status.decode d = .ok
      { source := _get_dom_element_attribute d "nowPlaying" "source"
        content_item := ci, track := vtrack, artist := vartist, album := valbum
        image := vimg, duration := vdur, position := vpos, play_status := vps
        shuffle_setting := vss, repeat_setting := vrs, stream_type := vstr
        track_id := vtid, station_name := vsn, description := vdesc
        station_location := vsl } := by
  simp only [Status.decode, hci, htrack, hartist, halbum, hdur, htime, hpos,
    hps, hss, hrs, hstr, htid, hsn, hdesc, hsl, ex_bind_ok]
  split
  next hcond =>
    rw [if_pos hcond] at himg
    simp only [himg, ex_bind_ok]
  next hcond =>
    rw [if_neg hcond] at himg
    injection himg with h
    subst h
    rfl

/-- C6: the derived `Config.device_ip` and `Config.mac_address` come from
the first `Network` whose type is `"SMSC"` when one exists, otherwise
from the first decoded `Network`, otherwise they are `None` — for any
decoded `Config`, hence for any ordering of the `networkInfo` children of
the `/info` document. -/
theorem spec_c6_network_selection (d : XmlNode) (c : Config)
    (hd : Config.decode (.doc d) = .ok c) :
    (∀ i (hi : i < c.networks.length),
      (c.networks.get ⟨i, hi⟩).type = "SMSC" →
      (∀ j (hj : j < c.networks.length), j < i → (c.networks.get ⟨j, hj⟩).type ≠ "SMSC") →
      c.device_ip = (c.networks.get ⟨i, hi⟩).ip_address ∧
      c.mac_address = (c.networks.get ⟨i, hi⟩).mac_address) ∧
    ((∀ n ∈ c.networks, n.type ≠ "SMSC") →
      ∀ n0, c.networks.head? = some n0 →
      c.device_ip = n0.ip_address ∧ c.mac_address = n0.mac_address) ∧
    (c.networks = [] → c.device_ip = none ∧ c.mac_address = none) := by
  refine ⟨?_, ?_, ?_⟩
  · intro i hi hsmsc hfirst
    have hfind : c.networks.find? (fun n => n.type == "SMSC") =
        some (c.networks.get ⟨i, hi⟩) := by
      refine find?_eq_of_first _ _ i hi (by simpa using hsmsc) ?_
      intro j hj hji
      simpa using hfirst j hj hji
    constructor
    · simp [Config.device_ip, hfind, Option.orElse]
    · simp [Config.mac_address, hfind, Option.orElse]
  · intro hnone n0 hh
    have hfind : c.networks.find? (fun n => n.type == "SMSC") = none := by
      rw [List.find?_eq_none]
      intro x hx
      simpa using hnone x hx
    constructor
    · simp [Config.device_ip, hfind, Option.orElse, hh]
    · simp [Config.mac_address, hfind, Option.orElse, hh]
  · intro hnil
    constructor
    · simp [Config.device_ip, hnil, Option.orElse]
    · simp [Config.mac_address, hnil, Option.orElse]

/-- C6, witness: decoding `infoDoc` (whose `"SMSC"` network comes second)
selects the second network's address pair. -/
theorem spec_c6_witness :
    ∃ c, Config.decode (.doc infoDoc) = .ok c ∧
      c.device_ip = some "ip2" ∧ c.mac_address = some "mac2" := by
  refine ⟨_, rfl, ?_⟩
  have h := spec_c6_network_selection infoDoc _ rfl
  have h1 := h.1 1 (by decide) (by decide) (by decide)
  exact ⟨h1.1.trans (by decide), h1.2.trans (by decide)⟩

/-- C7: `power_on` refreshes the status first; it sends exactly one POWER
press/release pair (two POSTs to `/key`, press then release) when the
refreshed source equals `"STANDBY"` and no key POST otherwise, and
`power_off` does exactly the complementary thing. -/
theorem spec_c7_power_keys (env : Env) (s : DeviceState) (st : Status)
    (h : Status.decode (.doc env.now_playing) = .ok st) :
    (st.source = some STATE_STANDBY →
      (power_on env s).trace =
        [.get (baseUrl s ++ "/now_playing"),
         .post (baseUrl s ++ "/key") "<key state=\"press\" sender=\"Gabbo\">POWER</key>",
         .post (baseUrl s ++ "/key") "<key state=\"release\" sender=\"Gabbo\">POWER</key>"] ∧
      (power_off env s).trace = [.get (baseUrl s ++ "/now_playing")]) ∧
    (st.source ≠ some STATE_STANDBY →
      (power_on env s).trace = [.get (baseUrl s ++ "/now_playing")] ∧
      (power_off env s).trace =
        [.get (baseUrl s ++ "/now_playing"),
         .post (baseUrl s ++ "/key") "<key state=\"press\" sender=\"Gabbo\">POWER</key>",
         .post (baseUrl s ++ "/key") "<key state=\"release\" sender=\"Gabbo\">POWER</key>"]) := by
  constructor
  · intro hs
    constructor
    · simp [power_on, refresh_status, h, hs, _send_key, baseUrl, KEY_POWER]
    · simp [power_off, refresh_status, h, hs, _send_key, baseUrl, KEY_POWER]
  · intro hs
    constructor
    · simp [power_on, refresh_status, h, hs, _send_key, baseUrl, KEY_POWER]
    · simp [power_off, refresh_status, h, hs, _send_key, baseUrl, KEY_POWER]

/-- C7, witness: with the standby `now_playing` fixture `power_on` sends
the POWER press/release POST pair and `power_off` sends none; with the
SPOTIFY fixture `power_on` sends no key POST. -/
theorem spec_c7_witness :
    (power_on envStandbyNoZone devFresh).trace =
      [.get "http://h:8090/now_playing",
       .post "http://h:8090/key" "<key state=\"press\" sender=\"Gabbo\">POWER</key>",
       .post "http://h:8090/key" "<key state=\"release\" sender=\"Gabbo\">POWER</key>"] ∧
    (power_off envStandbyNoZone devFresh).trace = [.get "http://h:8090/now_playing"] ∧
    (power_on envSpotifyZone devFresh).trace = [.get "http://h:8090/now_playing"] := by
  have h1 := (spec_c7_power_keys envStandbyNoZone devFresh _ rfl).1 (by decide)
  have h2 := (spec_c7_power_keys envSpotifyZone devFresh _ rfl).2 (by decide)
  exact ⟨h1.1, h1.2, h2.1⟩

/-- C10: `Status.image` can be `None` even when the `art` element carries
`artImageStatus="IMAGE_PRESENT"`, namely when the `art` element has no
text content: the `IMAGE_PRESENT` check only gates reading the text, it
does not guarantee a non-null image. -/
theorem spec_c10_image_present_none (d : Dom)
    (ci : ContentItem) (vtrack vartist valbum : Option String)
    (vdur : Option Int) (vtime : Option String) (vpos : Option Int)
    (vps vss vrs vstr vtid vsn vdesc vsl : Option String)
    (hattr : _get_dom_element_attribute d "art" "artImageStatus" = some "IMAGE_PRESENT")
    (hart : _get_dom_element_value d "art" = .ok none)
    (hci : ContentItem.decode (_get_dom_element d "ContentItem") = .ok ci)
    (htrack : _get_dom_element_value d "track" = .ok vtrack)
    (hartist : _get_dom_element_value d "artist" = .ok vartist)
    (halbum : _get_dom_element_value d "album" = .ok valbum)
    (hdur : decodeOptInt (_get_dom_element_attribute d "time" "total") = .ok vdur)
    (htime : _get_dom_element_value d "time" = .ok vtime)
    (hpos : decodeOptInt vtime = .ok vpos)
    (hps : _get_dom_element_value d "playStatus" = .ok vps)
    (hss : _get_dom_element_value d "shuffleSetting" = .ok vss)
    (hrs : _get_dom_element_value d "repeatSetting" = .ok vrs)
    (hstr : _get_dom_element_value d "streamType" = .ok vstr)
    (htid : _get_dom_element_value d "trackID" = .ok vtid)
    (hsn : _get_dom_element_value d "stationName" = .ok vsn)
    (hdesc : _get_dom_element_value d "description" = .ok vdesc)
    (hsl : _get_dom_element_value d "stationLocation" = .ok vsl) :
    (Status.decode d).map Status.image = .ok none := by
  rw [Status.decode_reads d ci vtrack vartist valbum none vdur vtime vpos vps vss
    vrs vstr vtid vsn vdesc vsl hci htrack hartist halbum
    (by simp [hattr, hart]) hdur htime hpos hps hss hrs hstr htid hsn hdesc hsl]
  rfl

/-- C10, witness: the standby fixture's `art` element is flagged
`IMAGE_PRESENT` yet empty, and the decoded image is `None`. -/
theorem spec_c10_witness :
    (Status.decode (.doc npStandbyDoc)).map Status.image = .ok none := by
  exact spec_c10_image_present_none (.doc npStandbyDoc) _ _ _ _ _ _ _ _ _ _ _ _ _ _ _
    rfl rfl rfl rfl rfl rfl rfl rfl rfl rfl rfl rfl rfl rfl rfl rfl rfl

/-- C1 (amended): `Status.duration` and `Status.position` follow the
guarded conversion `int(x) if x is not None else None` — an integer when
the source attribute/element is present with integer text, `None` when it
is absent, with no exception; but `Volume.actual`/`Volume.target` are
unguarded `int(...)` calls, so a missing `actualvolume` (or
`targetvolume`) element in a well-formed volume document raises
`TypeError` from `int(None)` instead of leaving the field undefined. -/
theorem spec_c1_numeric_fields (d : Dom)
    (ci : ContentItem) (vtrack vartist valbum vimg : Option String)
    (vdur : Option Int) (vtime : Option String) (vpos : Option Int)
    (vps vss vrs vstr vtid vsn vdesc vsl : Option String)
    (hci : ContentItem.decode (_get_dom_element d "ContentItem") = .ok ci)
    (htrack : _get_dom_element_value d "track" = .ok vtrack)
    (hartist : _get_dom_element_value d "artist" = .ok vartist)
    (halbum : _get_dom_element_value d "album" = .ok valbum)
    (himg : (if _get_dom_element_attribute d "art" "artImageStatus" = some "IMAGE_PRESENT" then
        _get_dom_element_value d "art" else .ok none) = .ok vimg)
    (hdur : decodeOptInt (_get_dom_element_attribute d "time" "total") = .ok vdur)
    (htime : _get_dom_element_value d "time" = .ok vtime)
    (hpos : decodeOptInt vtime = .ok vpos)
    (hps : _get_dom_element_value d "playStatus" = .ok vps)
    (hss : _get_dom_element_value d "shuffleSetting" = .ok vss)
    (hrs : _get_dom_element_value d "repeatSetting" = .ok vrs)
    (hstr : _get_dom_element_value d "streamType" = .ok vstr)
    (htid : _get_dom_element_value d "trackID" = .ok vtid)
    (hsn : _get_dom_element_value d "stationName" = .ok vsn)
    (hdesc : _get_dom_element_value d "description" = .ok vdesc)
    (hsl : _get_dom_element_value d "stationLocation" = .ok vsl) :
    (Status.decode d).map (fun st => (st.duration, st.position)) = .ok (vdur, vpos) ∧
    decodeOptInt none = .ok none ∧
    (∀ sN n, pyIntStr sN = .ok n → decodeOptInt (some sN) = .ok (some n)) ∧
    (∀ (dv : Dom), _get_dom_element_value dv "actualvolume" = .ok none →
      Volume.decode dv = .error .typeError) ∧
    (∀ (dv : Dom) (sa : String) (a : Int),
      _get_dom_element_value dv "actualvolume" = .ok (some sa) → pyIntStr sa = .ok a →
      _get_dom_element_value dv "targetvolume" = .ok none →
      Volume.decode dv = .error .typeError) ∧
    (∀ (dv : Dom) (sa stg : String) (m : Option String) (a t : Int),
      _get_dom_element_value dv "actualvolume" = .ok (some sa) → pyIntStr sa = .ok a →
      _get_dom_element_value dv "targetvolume" = .ok (some stg) → pyIntStr stg = .ok t →
      _get_dom_element_value dv "muteenabled" = .ok m →
      Volume.decode dv = .ok ⟨a, t, m == some "true"⟩) := by
  refine ⟨?_, rfl, ?_, ?_, ?_, ?_⟩
  · rw [Status.decode_reads d ci vtrack vartist valbum vimg vdur vtime vpos vps vss
      vrs vstr vtid vsn vdesc vsl hci htrack hartist halbum himg hdur htime hpos
      hps hss hrs hstr htid hsn hdesc hsl]
    rfl
  · intro sN n hn
    simp only [decodeOptInt, hn]
    rfl
  · intro dv hva
    simp only [Volume.decode, hva, ex_bind_ok]
    rfl
  · intro dv sa a h1 h2 h3
    simp only [Volume.decode, h1, h2, h3, pyInt, ex_bind_ok, ex_bind_error]
  · intro dv sa stg m a t h1 h2 h3 h4 h5
    simp only [Volume.decode, h1, h2, h3, h4, h5, pyInt, ex_bind_ok]

/-- C1, counterexample to the claim as stated: on the well-formed volume
document `<volume/>` (both volume elements absent) the `Volume` decoder
raises `TypeError` instead of leaving the fields undefined. -/
theorem spec_c1_counterexample :
    Volume.decode (.doc volEmptyDoc) = .error PyErr.typeError := by
  exact rfl

/-- C1, witness: the standby `now_playing` fixture decodes its `time`
element to `duration = 255` and `position = 32`; the full volume fixture
decodes to the literal integers, and the empty one raises. -/
theorem spec_c1_witness :
    (Status.decode (.doc npStandbyDoc)).map (fun st => (st.duration, st.position)) =
      .ok (some 255, some 32) ∧
    Volume.decode (.doc volEmptyDoc) = .error .typeError ∧
    Volume.decode (.doc volHalfDoc) = .error .typeError ∧
    Volume.decode (.doc volFullDoc) = .ok ⟨25, 30, false⟩ := by
  have h := spec_c1_numeric_fields (.doc npStandbyDoc)
    _ _ _ _ _ _ _ _ _ _ _ _ _ _ _ _
    rfl rfl rfl rfl rfl rfl rfl rfl rfl rfl rfl rfl rfl rfl rfl rfl
  exact ⟨h.1, h.2.2.2.1 (.doc volEmptyDoc) rfl,
    h.2.2.2.2.1 (.doc volHalfDoc) "25" 25 rfl rfl rfl,
    h.2.2.2.2.2 (.doc volFullDoc) "25" "30" (some "false") 25 30 rfl rfl rfl rfl rfl⟩

/-- C2 (amended): decoding is total for the optional sub-elements read
through the defaulted helpers, but three parts are required, not
optional: `Status` and `Preset` raise (`AttributeError`) when the
document has no `ContentItem` element, and `Network` raises (`KeyError`)
when the `networkInfo` element has no `type` attribute.  With those parts
present — and every element that is present of the expected shape
(text-valued leaves, numeric `time` fields) — the `Status`, `Network`,
`Preset` and `Config` constructors terminate without raising. -/
theorem spec_c2_decoder_totality
    (dn : Dom) (en pn : XmlNode) (dp : Dom) (ep pp : XmlNode) (dc : Dom)
    (hdn : _get_dom_element dn "ContentItem" = none)
    (hen : en.attrsOf.find? (fun p => p.1 = "type") = none)
    (hpn : _get_dom_element (.elem pn) "ContentItem" = none)
    (hp1 : ∃ ci, ContentItem.decode (_get_dom_element dp "ContentItem") = .ok ci)
    (hp2 : ∃ v, _get_dom_element_value dp "track" = .ok v)
    (hp3 : ∃ v, _get_dom_element_value dp "artist" = .ok v)
    (hp4 : ∃ v, _get_dom_element_value dp "album" = .ok v)
    (hp5 : ∃ v, (if _get_dom_element_attribute dp "art" "artImageStatus" = some "IMAGE_PRESENT" then
        _get_dom_element_value dp "art" else .ok none) = .ok v)
    (hp6 : ∃ v, decodeOptInt (_get_dom_element_attribute dp "time" "total") = .ok v)
    (hp7 : ∃ v w, _get_dom_element_value dp "time" = .ok v ∧ decodeOptInt v = .ok w)
    (hp8 : ∃ v, _get_dom_element_value dp "playStatus" = .ok v)
    (hp9 : ∃ v, _get_dom_element_value dp "shuffleSetting" = .ok v)
    (hp10 : ∃ v, _get_dom_element_value dp "repeatSetting" = .ok v)
    (hp11 : ∃ v, _get_dom_element_value dp "streamType" = .ok v)
    (hp12 : ∃ v, _get_dom_element_value dp "trackID" = .ok v)
    (hp13 : ∃ v, _get_dom_element_value dp "stationName" = .ok v)
    (hp14 : ∃ v, _get_dom_element_value dp "description" = .ok v)
    (hp15 : ∃ v, _get_dom_element_value dp "stationLocation" = .ok v)
    (he1 : ∃ tp, ep.attrsOf.find? (fun p => p.1 = "type") = some tp)
    (he2 : ∃ v, _get_dom_element_value (.elem ep) "macAddress" = .ok v)
    (he3 : ∃ v, _get_dom_element_value (.elem ep) "ipAddress" = .ok v)
    (hq1 : ∃ v, _get_dom_element_value (.elem pp) "itemName" = .ok v)
    (hq2 : ∃ ciN, _get_dom_element (.elem pp) "ContentItem" = some ciN)
    (hc1 : ∃ v, _get_dom_element_value dc "name" = .ok v)
    (hc2 : ∃ v, _get_dom_element_value dc "type" = .ok v)
    (hc3 : ∃ v, _get_dom_element_value dc "margeAccountUUID" = .ok v)
    (hc4 : ∃ v, _get_dom_element_value dc "moduleType" = .ok v)
    (hc5 : ∃ v, _get_dom_element_value dc "variant" = .ok v)
    (hc6 : ∃ v, _get_dom_element_value dc "variantMode" = .ok v)
    (hc7 : ∃ v, _get_dom_element_value dc "countryCode" = .ok v)
    (hc8 : ∃ v, _get_dom_element_value dc "regionCode" = .ok v)
    (hcn : ∀ x ∈ dc.getElementsByTagName "networkInfo", ∃ nw, Network.decode x = .ok nw)
    (hcc : ∀ x ∈ ((_get_dom_elements dc "components").map
        (fun cs => _get_dom_elements (.elem cs) "component")).flatten,
        ∃ c, Component.decode x = .ok c) :
    Status.decode dn = .error .attributeError ∧
    Network.decode en = .error .keyError ∧
    (∃ err, Preset.decode pn = .error err) ∧
    (∃ st, Status.decode dp = .ok st) ∧
    (∃ nw, Network.decode ep = .ok nw) ∧
    (∃ p, Preset.decode pp = .ok p) ∧
    (∃ c, Config.decode dc = .ok c) := by
  refine ⟨?_, ?_, ?_, ?_, ?_, ?_, ?_⟩
  · simp only [Status.decode, hdn, ContentItem.decode, ex_bind_error]
  · simp only [Network.decode, hen, ex_bind_error]
  · cases hname : _get_dom_element_value (.elem pn) "itemName" with
    | error e => exact ⟨e, by simp only [Preset.decode, hname, ex_bind_error]⟩
    | ok v =>
        exact ⟨.attributeError, by simp only [Preset.decode, hname, hpn, ex_bind_ok, ex_bind_error]⟩
  · obtain ⟨ci, h1⟩ := hp1
    obtain ⟨v2, h2⟩ := hp2
    obtain ⟨v3, h3⟩ := hp3
    obtain ⟨v4, h4⟩ := hp4
    obtain ⟨v5, h5⟩ := hp5
    obtain ⟨v6, h6⟩ := hp6
    obtain ⟨v7, w7, h7, h7b⟩ := hp7
    obtain ⟨v8, h8⟩ := hp8
    obtain ⟨v9, h9⟩ := hp9
    obtain ⟨v10, h10⟩ := hp10
    obtain ⟨v11, h11⟩ := hp11
    obtain ⟨v12, h12⟩ := hp12
    obtain ⟨v13, h13⟩ := hp13
    obtain ⟨v14, h14⟩ := hp14
    obtain ⟨v15, h15⟩ := hp15
    exact ⟨_, Status.decode_reads dp ci v2 v3 v4 v5 v6 v7 w7 v8 v9 v10 v11 v12 v13
      v14 v15 h1 h2 h3 h4 h5 h6 h7 h7b h8 h9 h10 h11 h12 h13 h14 h15⟩
  · obtain ⟨tp, ht⟩ := he1
    obtain ⟨mv, hm⟩ := he2
    obtain ⟨iv, hi⟩ := he3
    have hdec : Network.decode ep = .ok ⟨tp.2, mv, iv⟩ := by
      simp only [Network.decode, ht, hm, hi, ex_bind_ok]
    exact ⟨_, hdec⟩
  · obtain ⟨nv, hn1⟩ := hq1
    obtain ⟨ciN, hciN⟩ := hq2
    have hdec : Preset.decode pp = .ok
        { name := nv
          preset_id := _get_dom_attribute pp "id"
          source := _get_dom_element_attribute (.elem pp) "ContentItem" "source"
          type := _get_dom_element_attribute (.elem pp) "ContentItem" "type"
          location := _get_dom_element_attribute (.elem pp) "ContentItem" "location"
          source_account := _get_dom_element_attribute (.elem pp) "ContentItem" "sourceAccount"
          is_presetable :=
            _get_dom_element_attribute (.elem pp) "ContentItem" "isPresetable" == some "true"
          source_xml := toxml ciN } := by
      simp only [Preset.decode, hn1, hciN, ex_bind_ok]
    exact ⟨_, hdec⟩
  · obtain ⟨w1, g1⟩ := hc1
    obtain ⟨w2, g2⟩ := hc2
    obtain ⟨w3, g3⟩ := hc3
    obtain ⟨w4, g4⟩ := hc4
    obtain ⟨w5, g5⟩ := hc5
    obtain ⟨w6, g6⟩ := hc6
    obtain ⟨w7, g7⟩ := hc7
    obtain ⟨w8, g8⟩ := hc8
    obtain ⟨nws, hnws⟩ := mapM_ok_of_forall Network.decode _ hcn
    obtain ⟨cps, hcps⟩ := mapM_ok_of_forall Component.decode _ hcc
    have hdec : Config.decode dc = .ok
        { device_id := _get_dom_element_attribute dc "info" "deviceID"
          name := w1, type := w2, account_uuid := w3, module_type := w4
          variant := w5, variant_mode := w6, country_code := w7, region_code := w8
          networks := nws, components := cps } := by
      simp only [Config.decode, g1, g2, g3, g4, g5, g6, g7, g8, hnws, hcps, ex_bind_ok]
    exact ⟨_, hdec⟩

/-- C2, counterexample to the claim as stated: three documents whose only
defect is a missing optional-looking part make the decoders raise —
`Status` on a `nowPlaying` with no `ContentItem`, `Network` on a
`networkInfo` without `type`, `Preset` on a preset without
`ContentItem`. -/
theorem spec_c2_counterexample :
    Status.decode (.doc npNoContentItemDoc) = .error .attributeError ∧
    Network.decode networkNoTypeDoc = .error .keyError ∧
    Preset.decode presetNoContentItemDoc = .error .attributeError := by
  exact ⟨rfl, rfl, rfl⟩

/-- C2, witness: the amended statement applied to the concrete
fixtures. -/
theorem spec_c2_witness :
    Status.decode (.doc npNoContentItemDoc) = .error .attributeError ∧
    (∃ st, Status.decode (.doc npStandbyDoc) = .ok st) ∧
    (∃ nw, Network.decode networkTypedDoc = .ok nw) ∧
    (∃ p, Preset.decode presetDoc = .ok p) ∧
    (∃ c, Config.decode (.doc infoDoc) = .ok c) := by
  have h := spec_c2_decoder_totality
    (.doc npNoContentItemDoc) networkNoTypeDoc presetNoContentItemDoc
    (.doc npStandbyDoc) networkTypedDoc presetDoc (.doc infoDoc)
    rfl rfl rfl
    ⟨_, rfl⟩ ⟨_, rfl⟩ ⟨_, rfl⟩ ⟨_, rfl⟩ ⟨_, rfl⟩ ⟨_, rfl⟩ ⟨_, _, rfl, rfl⟩
    ⟨_, rfl⟩ ⟨_, rfl⟩ ⟨_, rfl⟩ ⟨_, rfl⟩ ⟨_, rfl⟩ ⟨_, rfl⟩ ⟨_, rfl⟩ ⟨_, rfl⟩
    ⟨_, rfl⟩ ⟨_, rfl⟩ ⟨_, rfl⟩
    ⟨_, rfl⟩ ⟨_, rfl⟩
    ⟨_, rfl⟩ ⟨_, rfl⟩ ⟨_, rfl⟩ ⟨_, rfl⟩ ⟨_, rfl⟩ ⟨_, rfl⟩ ⟨_, rfl⟩ ⟨_, rfl⟩
    (by intro x hx; fin_cases hx <;> exact ⟨_, rfl⟩)
    (by intro x hx; fin_cases hx)
  exact ⟨h.1, h.2.2.2.1, h.2.2.2.2.1, h.2.2.2.2.2.1, h.2.2.2.2.2.2⟩

/-! ## Round-trip lemmas for the serializer and the re-parser -/

/-- Rebuilding a string from its character data. -/
theorem string_mk_data (s : String) : String.mk s.data = s := rfl

/-- Taking exactly the length of the left part of an append. -/
theorem take_len_append (a b : List Char) : (a ++ b).take a.length = a := by
  induction a with
  | nil => rfl
  | cons x xs ih => simp [ih]

/-- Dropping exactly the length of the left part of an append. -/
theorem drop_len_append (a b : List Char) : (a ++ b).drop a.length = b := by
  induction a with
  | nil => rfl
  | cons x xs ih => simp [ih]

/-- Escaping one character yields at least one character. -/
theorem escChar_length_pos (c : Char) : 1 ≤ (escChar c).length := by
  unfold escChar
  split
  · simp
  · split
    · simp
    · split
      · simp
      · split <;> simp

/-- Escaping never shortens. -/
theorem esc_length_le (l : List Char) : l.length ≤ (esc l).length := by
  induction l with
  | nil => simp [esc]
  | cons c cs ih =>
      have := escChar_length_pos c
      simp only [esc, List.length_append, List.length_cons]
      omega

/-- Each serialized attribute contributes at least one character. -/
theorem serAttrs_length_le (attrs : List (String × String)) :
    attrs.length ≤ (serAttrs attrs).length := by
  induction attrs with
  | nil => simp [serAttrs]
  | cons p ps ih =>
      simp only [serAttrs, serAttr, List.length_append, List.length_cons]
      omega

/-- A serialized element is non-empty. -/
theorem serNode_elem_length_pos (tag : String) (attrs : List (String × String))
    (ch : List XmlNode) : 1 ≤ (serNode (.element tag attrs ch)).length := by
  cases ch <;> simp [serNode]

/-- A name character is not whitespace. -/
theorem nameChar_not_space (c : Char) (h : isNameChar c = true) : isPySpace c = false := by
  by_contra hsp
  rw [Bool.not_eq_false] at hsp
  have hc : c = ' ' ∨ c = '\t' ∨ c = '\n' ∨ c = '\r' ∨ c = Char.ofNat 11 ∨ c = Char.ofNat 12 := by
    simpa [isPySpace, or_assoc] using hsp
  rcases hc with rfl | rfl | rfl | rfl | rfl | rfl <;> exact absurd h (by decide)

/-- A name character is not a slash. -/
theorem nameChar_ne_slash (c : Char) (h : isNameChar c = true) : ¬ c = '/' := by
  intro e
  subst e
  exact absurd h (by decide)

/-- `takeName` splits a serialized name from its non-name remainder. -/
theorem takeName_append (nm tl : List Char) (h : ∀ c ∈ nm, isNameChar c = true)
    (htl : tl = [] ∨ ∃ c r, tl = c :: r ∧ isNameChar c = false) :
    takeName (nm ++ tl) = (nm, tl) := by
  induction nm with
  | nil =>
      rcases htl with rfl | ⟨c, r, rfl, hc⟩
      · rfl
      · simp [takeName, hc]
  | cons a as ih =>
      have ha : isNameChar a = true := h a (by simp)
      have ihr := ih (fun c hc => h c (by simp [hc]))
      simp [takeName, ha, ihr]

/-- `entHead` decodes each serializer entity. -/
theorem entHead_amp (r : List Char) : entHead ('a' :: 'm' :: 'p' :: ';' :: r) = some ('&', r) := by
  simp [entHead]

/-- `entHead` on `&lt;`. -/
theorem entHead_lt (r : List Char) : entHead ('l' :: 't' :: ';' :: r) = some ('<', r) := by
  simp [entHead]

/-- `entHead` on `&gt;`. -/
theorem entHead_gt (r : List Char) : entHead ('g' :: 't' :: ';' :: r) = some ('>', r) := by
  simp [entHead]

/-- `entHead` on `&quot;`. -/
theorem entHead_quot (r : List Char) : entHead ('q' :: 'u' :: 'o' :: 't' :: ';' :: r) = some ('"', r) := by
  simp [entHead]

/-- `parseQuoted` undoes the escaping, up to the closing quote. -/
theorem parseQuoted_esc (v : List Char) : ∀ (f : Nat) (rest : List Char),
    (esc v).length + 1 ≤ f →
    parseQuoted f (esc v ++ '"' :: rest) = some (v, rest) := by
  induction v with
  | nil =>
      intro f rest hf
      obtain ⟨g, rfl⟩ : ∃ g, f = g + 1 := ⟨f - 1, by omega⟩
      simp only [esc, List.nil_append]
      simp [parseQuoted]
  | cons c cs ih =>
      intro f rest hf
      obtain ⟨g, rfl⟩ : ∃ g, f = g + 1 := ⟨f - 1, by omega⟩
      simp only [esc, List.length_append] at hf
      by_cases h1 : c = '&'
      · subst h1
        have he : escChar '&' = ['&', 'a', 'm', 'p', ';'] := rfl
        rw [he] at hf
        simp only [esc, he, List.cons_append, List.nil_append]
        simp only [parseQuoted, entHead_amp]
        rw [ih g rest (by simp only [List.length_cons] at hf ⊢; omega)]
        rfl
      · by_cases h2 : c = '<'
        · subst h2
          have he : escChar '<' = ['&', 'l', 't', ';'] := rfl
          rw [he] at hf
          simp only [esc, he, List.cons_append, List.nil_append]
          simp only [parseQuoted, entHead_lt]
          rw [ih g rest (by simp only [List.length_cons] at hf ⊢; omega)]
          rfl
        · by_cases h3 : c = '"'
          · subst h3
            have he : escChar '"' = ['&', 'q', 'u', 'o', 't', ';'] := rfl
            rw [he] at hf
            simp only [esc, he, List.cons_append, List.nil_append]
            simp only [parseQuoted, entHead_quot]
            rw [ih g rest (by simp only [List.length_cons] at hf ⊢; omega)]
            rfl
          · by_cases h4 : c = '>'
            · subst h4
              have he : escChar '>' = ['&', 'g', 't', ';'] := rfl
              rw [he] at hf
              simp only [esc, he, List.cons_append, List.nil_append]
              simp only [parseQuoted, entHead_gt]
              rw [ih g rest (by simp only [List.length_cons] at hf ⊢; omega)]
              rfl
            · have he : escChar c = [c] := by
                simp [escChar, h1, h2, h3, h4]
              rw [he] at hf
              simp only [esc, he, List.cons_append, List.nil_append]
              simp only [parseQuoted, h1, h2, h3, if_false, ite_false]
              rw [ih g rest (by simp only [List.length_cons] at hf ⊢; omega)]
              rfl

/-- `parseText` undoes the escaping, up to the next `<`. -/
theorem parseText_esc (v : List Char) : ∀ (f : Nat) (r0 : List Char),
    (esc v).length + 1 ≤ f →
    parseText f (esc v ++ '<' :: r0) = some (v, '<' :: r0) := by
  induction v with
  | nil =>
      intro f r0 hf
      obtain ⟨g, rfl⟩ : ∃ g, f = g + 1 := ⟨f - 1, by omega⟩
      simp only [esc, List.nil_append]
      simp [parseText]
  | cons c cs ih =>
      intro f r0 hf
      obtain ⟨g, rfl⟩ : ∃ g, f = g + 1 := ⟨f - 1, by omega⟩
      simp only [esc, List.length_append] at hf
      by_cases h1 : c = '&'
      · subst h1
        have he : escChar '&' = ['&', 'a', 'm', 'p', ';'] := rfl
        rw [he] at hf
        simp only [esc, he, List.cons_append, List.nil_append]
        simp only [parseText, entHead_amp]
        rw [ih g r0 (by simp only [List.length_cons] at hf ⊢; omega)]
        rfl
      · by_cases h2 : c = '<'
        · subst h2
          have he : escChar '<' = ['&', 'l', 't', ';'] := rfl
          rw [he] at hf
          simp only [esc, he, List.cons_append, List.nil_append]
          simp only [parseText, entHead_lt]
          rw [ih g r0 (by simp only [List.length_cons] at hf ⊢; omega)]
          rfl
        · by_cases h3 : c = '"'
          · subst h3
            have he : escChar '"' = ['&', 'q', 'u', 'o', 't', ';'] := rfl
            rw [he] at hf
            simp only [esc, he, List.cons_append, List.nil_append]
            simp only [parseText, entHead_quot]
            rw [ih g r0 (by simp only [List.length_cons] at hf ⊢; omega)]
            rfl
          · by_cases h4 : c = '>'
            · subst h4
              have he : escChar '>' = ['&', 'g', 't', ';'] := rfl
              rw [he] at hf
              simp only [esc, he, List.cons_append, List.nil_append]
              simp only [parseText, entHead_gt]
              rw [ih g r0 (by simp only [List.length_cons] at hf ⊢; omega)]
              rfl
            · have he : escChar c = [c] := by
                simp [escChar, h1, h2, h3, h4]
              rw [he] at hf
              simp only [esc, he, List.cons_append, List.nil_append]
              simp only [parseText, h2, h1, if_false, ite_false]
              rw [ih g r0 (by simp only [List.length_cons] at hf ⊢; omega)]
              rfl

/-- Escaped non-empty text starts with a character that is not `<`. -/
theorem esc_cons_head (c : Char) (l tl : List Char) :
    ∃ c0 r0, esc (c :: l) ++ tl = c0 :: r0 ∧ ¬ c0 = '<' := by
  by_cases h1 : c = '&'
  · subst h1
    exact ⟨'&', 'a' :: 'm' :: 'p' :: ';' :: (esc l ++ tl), by simp [esc, escChar], by decide⟩
  · by_cases h2 : c = '<'
    · subst h2
      exact ⟨'&', 'l' :: 't' :: ';' :: (esc l ++ tl), by simp [esc, escChar], by decide⟩
    · by_cases h3 : c = '"'
      · subst h3
        exact ⟨'&', 'q' :: 'u' :: 'o' :: 't' :: ';' :: (esc l ++ tl),
          by simp [esc, escChar], by decide⟩
      · by_cases h4 : c = '>'
        · subst h4
          exact ⟨'&', 'g' :: 't' :: ';' :: (esc l ++ tl), by simp [esc, escChar], by decide⟩
        · exact ⟨c, esc l ++ tl, by simp [esc, escChar, h1, h2, h3, h4], h2⟩

/-- After a text node, a round-trippable sibling list continues with an
element (or ends). -/
theorem after_text_shape (s : String) (ns : List XmlNode)
    (h : noAdjText (XmlNode.text s :: ns) = true) :
    ns = [] ∨ ∃ tg a ch2 tl2, ns = XmlNode.element tg a ch2 :: tl2 := by
  cases ns with
  | nil => exact Or.inl rfl
  | cons m ms =>
      cases m with
      | text s2 => simp [noAdjText, isTextNode] at h
      | element tg a c => exact Or.inr ⟨tg, a, c, ms, rfl⟩

/-- `noAdjText` restricted to the tail. -/
theorem noAdjText_tail (n : XmlNode) (ns : List XmlNode)
    (h : noAdjText (n :: ns) = true) : noAdjText ns = true := by
  cases ns with
  | nil => rfl
  | cons b ms =>
      simp only [noAdjText, Bool.and_eq_true] at h
      exact h.2

/-- The closing-tag marker after serialized siblings either follows a
leading serialized element or stands first. -/
theorem serNodes_head_lt (ns : List XmlNode) (rest : List Char)
    (h : ns = [] ∨ ∃ tg a ch2 tl2, ns = XmlNode.element tg a ch2 :: tl2) :
    ∃ r0, serNodes ns ++ '<' :: '/' :: rest = '<' :: r0 := by
  rcases h with rfl | ⟨tg, a, ch2, tl2, rfl⟩
  · exact ⟨'/' :: rest, rfl⟩
  · cases ch2 with
    | nil =>
        exact ⟨tg.data ++ (serAttrs a ++ '/' :: '>' :: (serNodes tl2 ++ '<' :: '/' :: rest)),
          by simp [serNodes, serNode, List.append_assoc]⟩
    | cons c0 cs0 =>
        exact ⟨tg.data ++ (serAttrs a ++ '>' :: (serNode c0 ++ (serNodes cs0 ++
          '<' :: '/' :: (tg.data ++ '>' :: (serNodes tl2 ++ '<' :: '/' :: rest))))),
          by simp [serNodes, serNode, List.append_assoc]⟩

/-- `parseAttrs` undoes `serAttrs`, stopping at the first non-space,
non-name character. -/
theorem parseAttrs_ser (attrs : List (String × String)) :
    ∀ (f : Nat) (c : Char) (tl : List Char),
    (∀ p ∈ attrs, nameOk p.1 = true) →
    isPySpace c = false → isNameChar c = false →
    (serAttrs attrs).length + 1 ≤ f →
    parseAttrs f (serAttrs attrs ++ c :: tl) = some (attrs, c :: tl) := by
  induction attrs with
  | nil =>
      intro f c tl _ hsp hnc hf
      obtain ⟨g, rfl⟩ : ∃ g, f = g + 1 := ⟨f - 1, by omega⟩
      simp only [serAttrs, List.nil_append]
      simp [parseAttrs, hsp, hnc]
  | cons p ps ih =>
      intro f c tl hnames hsp hnc hf
      have hname : nameOk p.1 = true := hnames p (by simp)
      have hAll : ∀ x ∈ p.1.data, isNameChar x = true := by
        simp only [nameOk, Bool.and_eq_true, List.all_eq_true, decide_eq_true_eq] at hname
        exact fun x hx => hname.2 x hx
      have hNe : p.1.data ≠ [] := by
        simp only [nameOk, Bool.and_eq_true] at hname
        simpa using hname.1
      have hlen : (serAttrs (p :: ps)).length =
          p.1.data.length + (esc p.2.data).length + (serAttrs ps).length + 4 := by
        simp only [serAttrs, serAttr, List.length_append, List.length_cons, List.length_nil]
        omega
      obtain ⟨g, rfl⟩ : ∃ g, f = g + 1 := ⟨f - 1, by omega⟩
      obtain ⟨g2, rfl⟩ : ∃ g2, g = g2 + 1 := ⟨g - 1, by omega⟩
      cases hpd : p.1.data with
      | nil => exact absurd hpd hNe
      | cons a as =>
      have hdlen : p.1.data.length = as.length + 1 := by rw [hpd]; rfl
      have ha : isNameChar a = true := hAll a (by rw [hpd]; exact List.mem_cons_self a as)
      have hspa : isPySpace a = false := nameChar_not_space a ha
      have hser : serAttrs (p :: ps) ++ c :: tl =
          ' ' :: a :: (as ++ ('=' :: '"' :: (esc p.2.data ++ '"' :: (serAttrs ps ++ c :: tl)))) := by
        simp [serAttrs, serAttr, hpd, List.append_assoc]
      have htn : takeName (a :: (as ++ ('=' :: '"' :: (esc p.2.data ++ '"' :: (serAttrs ps ++ c :: tl))))) =
          (a :: as, '=' :: '"' :: (esc p.2.data ++ '"' :: (serAttrs ps ++ c :: tl))) := by
        have := takeName_append (a :: as)
          ('=' :: '"' :: (esc p.2.data ++ '"' :: (serAttrs ps ++ c :: tl)))
          (by rw [← hpd]; exact hAll) (Or.inr ⟨'=', _, rfl, by decide⟩)
        simpa using this
      have hq : parseQuoted g2 (esc p.2.data ++ '"' :: (serAttrs ps ++ c :: tl)) =
          some (p.2.data, serAttrs ps ++ c :: tl) :=
        parseQuoted_esc p.2.data g2 (serAttrs ps ++ c :: tl) (by omega)
      have hrec : parseAttrs g2 (serAttrs ps ++ c :: tl) = some (ps, c :: tl) :=
        ih g2 c tl (fun x hx => hnames x (by simp [hx])) hsp hnc (by omega)
      rw [hser]
      simp only [parseAttrs]
      rw [if_pos (show isPySpace ' ' = true from rfl)]
      rw [if_neg (by rw [hspa]; exact Bool.false_ne_true), if_pos ha]
      rw [htn]
      simp only [hq, hrec]
      rw [← hpd]

/-- Unfolding a serialized element through `serElemTail`. -/
theorem serNode_elem (tag : String) (attrs : List (String × String)) (ch : List XmlNode) :
    serNode (.element tag attrs ch) =
      '<' :: tag.data ++ serAttrs attrs ++ serElemTail tag ch := by
  cases ch <;> simp [serNode, serElemTail]

/-- The re-parser inverts the serializer: with enough fuel, a serialized
well-formed element parses back to itself (and a serialized sibling list
parses back up to the closing-tag marker), leaving the remainder
untouched. -/
theorem parse_ser (f : Nat) :
    (∀ (tag : String) (attrs : List (String × String)) (ch : List XmlNode) (rest : List Char),
      wfNode (.element tag attrs ch) = true →
      2 * ((serNode (.element tag attrs ch)).length + rest.length) + 2 ≤ f →
      parseElem f (serNode (.element tag attrs ch) ++ rest) =
        some (.element tag attrs ch, rest)) ∧
    (∀ (ch : List XmlNode) (rest : List Char),
      wfNodes ch = true → noAdjText ch = true →
      2 * ((serNodes ch).length + 2 + rest.length) + 3 ≤ f →
      parseContent f (serNodes ch ++ '<' :: '/' :: rest) = some (ch, '<' :: '/' :: rest)) := by
  induction f with
  | zero =>
      constructor
      · intro tag attrs ch rest _ hf
        exact absurd hf (by omega)
      · intro ch rest _ _ hf
        exact absurd hf (by omega)
  | succ g ih =>
      constructor
      · intro tag attrs ch rest hwf hf
        have hwf' := hwf
        simp only [wfNode, Bool.and_eq_true] at hwf'
        obtain ⟨⟨⟨hname, hattrs⟩, hadj⟩, hch⟩ := hwf'
        have hattrs' : ∀ p ∈ attrs, nameOk p.1 = true := by
          simpa [List.all_eq_true] using hattrs
        have hNe : tag.data ≠ [] := by
          simp only [nameOk, Bool.and_eq_true] at hname
          simpa using hname.1
        have hAllTag : ∀ x ∈ tag.data, isNameChar x = true := by
          simp only [nameOk, Bool.and_eq_true, List.all_eq_true] at hname
          exact fun x hx => hname.2 x hx
        cases ch with
        | nil =>
            have hser : serNode (XmlNode.element tag attrs []) ++ rest =
                '<' :: (tag.data ++ (serAttrs attrs ++ '/' :: '>' :: rest)) := by
              simp [serNode, List.append_assoc]
            have hlen : (serNode (XmlNode.element tag attrs [])).length =
                tag.data.length + (serAttrs attrs).length + 3 := by
              simp only [serNode, List.length_append, List.length_cons, List.length_nil]
              omega
            rw [hser]
            simp only [parseElem]
            have htn : takeName (tag.data ++ (serAttrs attrs ++ '/' :: '>' :: rest)) =
                (tag.data, serAttrs attrs ++ '/' :: '>' :: rest) := by
              apply takeName_append _ _ hAllTag
              cases attrs with
              | nil => exact Or.inr ⟨'/', '>' :: rest, by simp [serAttrs], by decide⟩
              | cons p ps =>
                  exact Or.inr ⟨' ', p.1.data ++ '=' :: '"' ::
                    (esc p.2.data ++ '"' :: (serAttrs ps ++ '/' :: '>' :: rest)),
                    by simp [serAttrs, serAttr, List.append_assoc], by decide⟩
            rw [htn]
            rw [if_neg hNe]
            rw [parseAttrs_ser attrs g '/' ('>' :: rest) hattrs' (by decide) (by decide)
              (by omega)]
            rfl
        | cons c0 cs0 =>
            have hser : serNode (XmlNode.element tag attrs (c0 :: cs0)) ++ rest =
                '<' :: (tag.data ++ (serAttrs attrs ++ '>' ::
                  (serNodes (c0 :: cs0) ++ '<' :: '/' :: (tag.data ++ '>' :: rest)))) := by
              simp [serNode, List.append_assoc]
            have hlen : (serNode (XmlNode.element tag attrs (c0 :: cs0))).length =
                tag.data.length + (serAttrs attrs).length + (serNodes (c0 :: cs0)).length +
                  tag.data.length + 5 := by
              simp only [serNode, List.length_append, List.length_cons, List.length_nil]
              omega
            have hlen2 : (tag.data ++ '>' :: rest).length = tag.data.length + rest.length + 1 := by
              simp only [List.length_append, List.length_cons]
              omega
            rw [hser]
            simp only [parseElem]
            have htn : takeName (tag.data ++ (serAttrs attrs ++ '>' ::
                (serNodes (c0 :: cs0) ++ '<' :: '/' :: (tag.data ++ '>' :: rest)))) =
                (tag.data, serAttrs attrs ++ '>' ::
                  (serNodes (c0 :: cs0) ++ '<' :: '/' :: (tag.data ++ '>' :: rest))) := by
              apply takeName_append _ _ hAllTag
              cases attrs with
              | nil =>
                  exact Or.inr ⟨'>', serNodes (c0 :: cs0) ++ '<' :: '/' :: (tag.data ++ '>' :: rest),
                    by simp [serAttrs], by decide⟩
              | cons p ps =>
                  exact Or.inr ⟨' ', p.1.data ++ '=' :: '"' ::
                    (esc p.2.data ++ '"' :: (serAttrs ps ++ '>' ::
                      (serNodes (c0 :: cs0) ++ '<' :: '/' :: (tag.data ++ '>' :: rest)))),
                    by simp [serAttrs, serAttr, List.append_assoc], by decide⟩
            rw [htn]
            rw [if_neg hNe]
            rw [parseAttrs_ser attrs g '>'
              (serNodes (c0 :: cs0) ++ '<' :: '/' :: (tag.data ++ '>' :: rest)) hattrs'
              (by decide) (by decide) (by omega)]
            have hpc := ih.2 (c0 :: cs0) (tag.data ++ '>' :: rest) hch hadj (by omega)
            simp only [hpc, take_len_append, drop_len_append]
            rfl
      · intro ch rest hwf hadj hf
        cases ch with
        | nil =>
            simp only [serNodes, List.nil_append]
            simp [parseContent]
        | cons n ns =>
            have hwf2 : wfNode n = true ∧ wfNodes ns = true := by
              simpa [wfNodes, Bool.and_eq_true] using hwf
            have hadj2 : noAdjText ns = true := noAdjText_tail n ns hadj
            have hsn : (serNodes (n :: ns)).length = (serNode n).length + (serNodes ns).length := by
              simp [serNodes]
            cases n with
            | element tag2 attrs2 ch2 =>
                have hname2 : nameOk tag2 = true := by
                  have := hwf2.1
                  simp only [wfNode, Bool.and_eq_true] at this
                  exact this.1.1.1
                have hNe2 : tag2.data ≠ [] := by
                  simp only [nameOk, Bool.and_eq_true] at hname2
                  simpa using hname2.1
                cases htag2 : tag2.data with
                | nil => exact absurd htag2 hNe2
                | cons d ds =>
                have hd : isNameChar d = true := by
                  simp only [nameOk, Bool.and_eq_true, List.all_eq_true] at hname2
                  exact hname2.2 d (by rw [htag2]; exact List.mem_cons_self d ds)
                have hser : serNodes (XmlNode.element tag2 attrs2 ch2 :: ns) ++ '<' :: '/' :: rest =
                    '<' :: d :: (ds ++ (serAttrs attrs2 ++ (serElemTail tag2 ch2 ++
                      (serNodes ns ++ '<' :: '/' :: rest)))) := by
                  simp [serNodes, serNode_elem, htag2, List.append_assoc]
                have hser2 : '<' :: d :: (ds ++ (serAttrs attrs2 ++ (serElemTail tag2 ch2 ++
                    (serNodes ns ++ '<' :: '/' :: rest)))) =
                    serNode (XmlNode.element tag2 attrs2 ch2) ++
                      (serNodes ns ++ '<' :: '/' :: rest) := by
                  simp [serNode_elem, htag2, List.append_assoc]
                have hE : 1 ≤ (serNode (XmlNode.element tag2 attrs2 ch2)).length :=
                  serNode_elem_length_pos tag2 attrs2 ch2
                have hrest2 : (serNodes ns ++ '<' :: '/' :: rest).length =
                    (serNodes ns).length + rest.length + 2 := by
                  simp only [List.length_append, List.length_cons]
                  omega
                rw [hser]
                simp only [parseContent, if_true]
                rw [if_neg (nameChar_ne_slash d hd)]
                rw [hser2]
                have hel := ih.1 tag2 attrs2 ch2 (serNodes ns ++ '<' :: '/' :: rest) hwf2.1
                  (by omega)
                have hpc := ih.2 ns rest hwf2.2 hadj2 (by omega)
                simp only [hel, hpc]
            | text s =>
                have hsne : s.data ≠ [] := by
                  have := hwf2.1
                  simp only [wfNode] at this
                  simpa using this
                cases hsd : s.data with
                | nil => exact absurd hsd hsne
                | cons sc scs =>
                have hE : s.data.length ≤ (esc s.data).length := esc_length_le s.data
                have hE1 : 1 ≤ s.data.length := by rw [hsd]; simp
                have hsl : (serNode (XmlNode.text s)).length = (esc s.data).length := by
                  simp [serNode]
                obtain ⟨r0, hr0⟩ := serNodes_head_lt ns rest (after_text_shape s ns hadj)
                obtain ⟨c0, rr0, hcr, hclt⟩ := esc_cons_head sc scs (serNodes ns ++ '<' :: '/' :: rest)
                have hser : serNodes (XmlNode.text s :: ns) ++ '<' :: '/' :: rest =
                    c0 :: rr0 := by
                  rw [show serNodes (XmlNode.text s :: ns) ++ '<' :: '/' :: rest =
                    esc s.data ++ (serNodes ns ++ '<' :: '/' :: rest) from
                      by simp [serNodes, serNode, List.append_assoc]]
                  rw [hsd]
                  exact hcr
                rw [hser]
                simp only [parseContent]
                rw [if_neg hclt]
                rw [← hcr, ← hsd, hr0]
                have hpt := parseText_esc s.data g r0 (by omega)
                have hpc := ih.2 ns rest hwf2.2 hadj2 (by omega)
                simp only [hpt]
                rw [if_neg hsne]
                rw [← hr0]
                simp only [hpc]

/-- Serializing a well-formed element with `toxml` and re-parsing yields
the element back. -/
theorem reparse_toxml (tag : String) (attrs : List (String × String)) (ch : List XmlNode)
    (hwf : wfNode (.element tag attrs ch) = true) :
    reparse (toxml (.element tag attrs ch)) = some (.element tag attrs ch) := by
  have h := (parse_ser (2 * (serNode (.element tag attrs ch)).length + 2)).1 tag attrs ch []
    hwf (by simp)
  rw [List.append_nil] at h
  unfold reparse toxml
  simp only [h]

/-- C8: a `Preset` decoded from a preset element whose first
`ContentItem` child carries `source` and `type` attributes (and is a
round-trippable fragment: valid names, non-empty text runs, no adjacent
text) stores in `source_xml` a serialization that re-parses to an element
with the same `source` and `type` attributes — which also equal the
`Preset`'s own `source` and `type` fields. -/
theorem spec_c8_preset_roundtrip (e : XmlNode) (tag : String)
    (attrs : List (String × String)) (ch : List XmlNode) (X Y : String) (p : Preset)
    (hci : _get_dom_element (.elem e) "ContentItem" = some (.element tag attrs ch))
    (hwf : wfNode (.element tag attrs ch) = true)
    (hsrc : _get_dom_attribute (.element tag attrs ch) "source" = some X)
    (hty : _get_dom_attribute (.element tag attrs ch) "type" = some Y)
    (hp : Preset.decode e = .ok p) :
    p.source = some X ∧ p.type = some Y ∧
    ∃ el, reparse p.source_xml = some el ∧
      _get_dom_attribute el "source" = some X ∧ _get_dom_attribute el "type" = some Y := by
  cases hname : _get_dom_element_value (.elem e) "itemName" with
  | error err =>
      rw [Preset.decode] at hp
      rw [hname] at hp
      exact absurd hp (by simp [ex_bind_error])
  | ok v =>
      simp only [Preset.decode, hname, hci, ex_bind_ok] at hp
      simp only [Except.ok.injEq] at hp
      subst hp
      refine ⟨?_, ?_, XmlNode.element tag attrs ch, ?_, hsrc, hty⟩
      · simpa [_get_dom_element_attribute, _get_dom_attribute, hci] using hsrc
      · simpa [_get_dom_element_attribute, _get_dom_attribute, hci] using hty
      · exact reparse_toxml tag attrs ch hwf

/-- C8, witness: the concrete preset fixture decodes, and its
`source_xml` re-parses to an element with the original `source`/`type`
attributes. -/
theorem spec_c8_witness :
    Preset.decode presetDoc = .ok
      { name := some "N", preset_id := some "1", source := some "X", type := some "Y"
        location := none, source_account := none, is_presetable := false
        source_xml :=
          "<ContentItem source=\"X\" type=\"Y\"><itemName>N</itemName></ContentItem>" } ∧
    (∃ el, reparse "<ContentItem source=\"X\" type=\"Y\"><itemName>N</itemName></ContentItem>" =
        some el ∧
      _get_dom_attribute el "source" = some "X" ∧ _get_dom_attribute el "type" = some "Y") := by
  have h := spec_c8_preset_roundtrip presetDoc "ContentItem"
    [("source", "X"), ("type", "Y")] [XmlNode.element "itemName" [] [XmlNode.text "N"]]
    "X" "Y"
    { name := some "N", preset_id := some "1", source := some "X", type := some "Y"
      location := none, source_account := none, is_presetable := false
      source_xml :=
        "<ContentItem source=\"X\" type=\"Y\"><itemName>N</itemName></ContentItem>" }
    rfl rfl rfl rfl rfl
  exact ⟨rfl, h.2.2⟩

end LibSoundtouch
